import Mathlib

/-!
Shallow embedding of the web-image-format-variation-toolkit repository
(Python) and proofs about its specification claims.

External collaborators (PIL, piexif, scikit-image, ImageMagick subprocesses,
the filesystem) are modelled as explicit oracles passed to the embedded
functions; the control flow, dispatch tables and bookkeeping of the
repository code itself are translated directly from the source files
`src/variation_generator.py`, `src/variation_validator.py`,
`src/image_comparator.py`, `src/utils/imagemagick.py`,
`src/validators/avif.py`, `src/validators/gif.py` and
`src/image_generator.py`.
-/

namespace ImgVarToolkit

/-- Python dict assignment `d[k] = v` on an insertion-ordered association
list: an existing key keeps its position and gets the new value, a new key
is appended at the end (CPython dict semantics; the lists built here never
carry duplicate keys). -/
def dictSet {κ α : Type} [BEq κ] : List (κ × α) → κ → α → List (κ × α)
  | [], k, v => [(k, v)]
  | p :: t, k, v => if p.1 == k then (k, v) :: t else p :: dictSet t k v

/-- Python dict `pop(k, None)`: remove the key if present, keeping the
order of the remaining entries. -/
def dictPop {κ α : Type} [BEq κ] (d : List (κ × α)) (k : κ) : List (κ × α) :=
  d.filter (fun p => !(p.1 == k))

/-- Looking up the key just assigned returns the assigned value. -/
theorem lookup_dictSet_self {κ α : Type} [BEq κ] [LawfulBEq κ]
    (d : List (κ × α)) (k : κ)
    (v : α) : (dictSet d k v).lookup k = some v := by
  induction d with
  | nil => simp [dictSet, List.lookup]
  | cons p t ih =>
    cases hp : (p.1 == k) with
    | true =>
      simp only [dictSet, hp, if_true, List.lookup, beq_self_eq_true]
    | false =>
      have hk : (k == p.1) = false := by
        rw [beq_eq_false_iff_ne] at hp ⊢
        exact fun h => hp h.symm
      simp only [dictSet, hp, Bool.false_eq_true, if_false, List.lookup, hk, ih]

/-- Assigning a fresh key (not present in the dict) appends it. -/
theorem dictSet_of_not_mem {κ α : Type} [BEq κ] (d : List (κ × α)) (k : κ)
    (v : α) (h : d.any (fun p => p.1 == k) = false) :
    dictSet d k v = d ++ [(k, v)] := by
  induction d with
  | nil => rfl
  | cons p t ih =>
    simp only [List.any_cons, Bool.or_eq_false_iff] at h
    simp [dictSet, h.1, ih h.2]

/-- One recorded test inside `ValidationResult.tests`: the value dict
`("passed": ..., "expected": ..., "actual": ..., "details": ...)` built by
`add_test` (src/variation_validator.py lines 30-41). -/
structure TestRecord where
  passed : Bool
  expected : Option String
  actual : Option String
  details : Option String
deriving DecidableEq, Repr

/-- Embedding of the `ValidationResult` container
(src/variation_validator.py lines 18-41): filename, category and variation
type strings, the insertion-ordered `tests` dict, the aggregate `passed`
flag and the `errors` list.  The `expected_specs` payload is carried
separately by each embedded validator. -/
structure ValidationResult where
  filename : String
  category : String
  variation_type : String
  tests : List (String × TestRecord)
  passed : Bool
  errors : List String
deriving DecidableEq, Repr

/-- Constructor of `ValidationResult`: empty tests dict, `passed = True`,
no errors. -/
def ValidationResult.fresh (filename category variation_type : String) :
    ValidationResult :=
  ⟨filename, category, variation_type, [], true, []⟩

/-- Embedding of `ValidationResult.add_test`: store the record under
`test_name` in the `tests` dict; on a failing test set `passed` to `False`
and append a message to `errors`.  `passed` is never reset to `True`. -/
def ValidationResult.add_test (r : ValidationResult) (test_name : String)
    (ok : Bool) (expected : Option String := none)
    (actual : Option String := none) (details : Option String := none) :
    ValidationResult :=
  { r with
    tests := dictSet r.tests test_name ⟨ok, expected, actual, details⟩
    passed := if ok then r.passed else false
    errors :=
      if ok then r.errors
      else r.errors ++ [test_name ++ ": expected " ++ expected.getD "None"
            ++ ", got " ++ actual.getD "None"] }

/-- One pending `add_test` invocation, used to reason about arbitrary call
sequences against a `ValidationResult`. -/
structure TestCall where
  name : String
  ok : Bool
  expected : Option String := none
  actual : Option String := none
  details : Option String := none
deriving DecidableEq, Repr

/-- Apply a sequence of `add_test` calls, left to right. -/
def applyTests (r : ValidationResult) (calls : List TestCall) :
    ValidationResult :=
  calls.foldl
    (fun acc c => acc.add_test c.name c.ok c.expected c.actual c.details) r

/-- The aggregate `passed` flag after a call sequence is the conjunction of
the initial flag with the `passed` arguments of every call. -/
theorem applyTests_passed (r : ValidationResult) (calls : List TestCall) :
    (applyTests r calls).passed = (r.passed && calls.all (fun c => c.ok)) := by
  induction calls generalizing r with
  | nil => simp [applyTests]
  | cons c t ih =>
    simp only [applyTests, List.foldl_cons, List.all_cons]
    rw [show (List.foldl
        (fun acc c => acc.add_test c.name c.ok c.expected c.actual c.details)
        (r.add_test c.name c.ok c.expected c.actual c.details) t)
      = applyTests (r.add_test c.name c.ok c.expected c.actual c.details) t
      from rfl, ih]
    cases hc : c.ok <;> simp [ValidationResult.add_test, hc]

/-- Applying distinct-named calls to a result whose tests dict avoids those
names appends one record per call, in order. -/
theorem applyTests_tests (r : ValidationResult) (calls : List TestCall)
    (hdisj : ∀ c ∈ calls, r.tests.any (fun p => p.1 == c.name) = false)
    (hnd : (calls.map (fun c => c.name)).Nodup) :
    (applyTests r calls).tests
      = r.tests ++ calls.map
          (fun c => (c.name, (⟨c.ok, c.expected, c.actual, c.details⟩ : TestRecord))) := by
  induction calls generalizing r with
  | nil => simp [applyTests]
  | cons c t ih =>
    simp only [List.map_cons, List.nodup_cons] at hnd
    have hc : r.tests.any (fun p => p.1 == c.name) = false :=
      hdisj c (List.mem_cons_self c t)
    simp only [applyTests, List.foldl_cons]
    rw [show (List.foldl
        (fun acc c => acc.add_test c.name c.ok c.expected c.actual c.details)
        (r.add_test c.name c.ok c.expected c.actual c.details) t)
      = applyTests (r.add_test c.name c.ok c.expected c.actual c.details) t
      from rfl]
    rw [ih]
    · simp [ValidationResult.add_test, dictSet_of_not_mem _ _ _ hc]
    · intro c' hc'
      have hn : c'.name ≠ c.name := by
        intro he
        exact hnd.1 (he ▸ List.mem_map_of_mem (fun x => x.name) hc')
      simp only [ValidationResult.add_test, dictSet_of_not_mem _ _ _ hc,
        List.any_append, Bool.or_eq_false_iff]
      refine ⟨hdisj c' (List.mem_cons_of_mem _ hc'), ?_⟩
      simp only [List.any_cons, List.any_nil, Bool.or_false,
        beq_eq_false_iff_ne]
      exact Ne.symm hn
    · exact hnd.2

/-! ### AVIF validator (src/validators/avif.py, `AvifValidator._validate_file`) -/

/-- What PIL reports when `Image.open` succeeds on an AVIF file: the format
string and the pixel dimensions. -/
structure AvifPilInfo where
  format : String
  width : Nat
  height : Nat
deriving DecidableEq, Repr

/-- Outcome of the `magick identify` subprocess in the AVIF validator:
either the call raises, or it ran with a given return code, a flag for
whether the word AVIF occurs in stdout, and the parsed size token of the
first output line when at least three whitespace tokens are present. -/
inductive AvifMagickOutcome where
  | raises
  | ran (rcZero : Bool) (stdoutHasAvif : Bool) (sizeInfo : Option String)
deriving DecidableEq, Repr

/-- Oracle describing one AVIF file as seen by the validator: existence,
the PIL view (`none` models `Image.open` raising) and the ImageMagick
identify outcome. -/
structure AvifFileView where
  fileExists : Bool
  pil : Option AvifPilInfo
  magick : AvifMagickOutcome
deriving DecidableEq, Repr

/-- Embedding of `AvifValidator._validate_file` (src/validators/avif.py
lines 33-112): file-existence check, PIL attempt, ImageMagick identify
fallback, subtype test, and the explicit override of the aggregate
`passed` flag when only the fallback succeeded. -/
def avif_validate_file (view : AvifFileView) (filename : String)
    (subtype : Option String) : ValidationResult :=
  let result := ValidationResult.fresh filename "avif" "variation"
  if view.fileExists = false then
    result.add_test "file_exists" false (some "True") (some "False")
      (some "File does not exist")
  else
    let result := result.add_test "file_exists" true (some "True")
      (some "True") (some "File exists")
    let step1 :=
      match view.pil with
      | some info =>
        let r := result.add_test "pil_readable" true (some "True")
          (some "True") (some "PIL can read AVIF file")
        let r :=
          if info.format = "AVIF" ∨ info.format = "HEIF" then
            r.add_test "format" true (some "AVIF/HEIF") (some info.format)
              (some "Correct AVIF format")
          else
            r.add_test "format" false (some "AVIF/HEIF") (some info.format)
              (some "Wrong format")
        let r :=
          if 0 < info.width ∧ 0 < info.height then
            r.add_test "dimensions" true (some ">0x>0") none
              (some "Valid dimensions")
          else
            r.add_test "dimensions" false (some ">0x>0") none
              (some "Invalid dimensions")
        (r, true)
      | none =>
        (result.add_test "pil_readable" false (some "True") (some "False")
          (some "PIL cannot read"), false)
    let result := step1.1
    let pil_readable := step1.2
    let step2 :=
      if pil_readable then (result, false)
      else
        match view.magick with
        | .raises =>
          (result.add_test "imagemagick_valid" false (some "AVIF identified")
            (some "Error") (some "ImageMagick error"), false)
        | .ran rcZero hasAvif sizeInfo =>
          if rcZero ∧ hasAvif then
            let r := result.add_test "imagemagick_valid" true
              (some "AVIF identified") (some "AVIF identified")
              (some "Valid AVIF confirmed by ImageMagick")
            let r := r.add_test "format" true (some "AVIF") (some "AVIF")
              (some "AVIF format confirmed by ImageMagick")
            let r :=
              match sizeInfo with
              | some s => r.add_test "dimensions" true (some ">0x>0")
                  (some s) (some "Valid dimensions")
              | none => r
            (r, true)
          else
            (result.add_test "imagemagick_valid" false
              (some "AVIF identified") (some "Not AVIF")
              (some "ImageMagick cannot identify as AVIF"), false)
    let result := step2.1
    let imagemagick_success := step2.2
    let result :=
      if pil_readable || imagemagick_success then
        match subtype with
        | some st => result.add_test "subtype" true (some st) (some st)
            (some "Valid subtype AVIF")
        | none => result
      else result
    if !pil_readable && imagemagick_success then
      let nonPil := result.tests.filter (fun p => p.1 ≠ "pil_readable")
      if nonPil.all (fun p => p.2.passed) then
        let result := { result with passed := true }
        let result := result.add_test "pil_readable" true (some "Optional")
          (some "Fallback used")
          (some "PIL AVIF support not available - using ImageMagick fallback")
        { result with
          errors := result.errors.filter
            (fun e => ¬ ("pil_readable".toList <:+: e.toList)) }
      else result
    else result

/-! ### ImageMagick command runner
(src/utils/imagemagick.py `ImageMagickUtils.run_command` and the
identical `_run_imagemagick_command` in src/variation_generator.py
lines 964-996) -/

/-- Result of an embedded Python call: a normal return value or an
uncaught exception identified by its class name. -/
inductive PyOutcome (α : Type) where
  | ok (a : α)
  | exn (name : String)
deriving DecidableEq, Repr

/-- Subprocess oracle for the runner: whether `<name> --version` succeeds
for a candidate binary name, and whether `subprocess.run(cmd, check=True)`
succeeds for a full command list. -/
structure SubprocEnv where
  versionOk : String → Bool
  runOk : List String → Bool

/-- Embedding of the detection loop: try `magick --version` then
`convert --version`, returning the first binary whose probe succeeds. -/
def detect_imagemagick_cmd (env : SubprocEnv) : Option String :=
  if env.versionOk "magick" then some "magick"
  else if env.versionOk "convert" then some "convert"
  else none

/-- The process-wide cache `_imagemagick_cmd` (a class variable in
`ImageMagickUtils`, a module global in variation_generator.py). -/
structure MagickState where
  imagemagick_cmd : Option String
deriving DecidableEq, Repr

/-- Full outcome of one `run_command` call: the Python-level result, the
updated process-wide cache, and the (possibly mutated in place) caller
command list. -/
structure RunCommandOut where
  res : PyOutcome Bool
  state : MagickState
  cmd : List String
deriving DecidableEq, Repr

/-- Embedding of `ImageMagickUtils.run_command` (src/utils/imagemagick.py
lines 17-56): detect and cache the binary on first use; on detection
failure return `False`; otherwise overwrite `cmd[0]` with the cached name
(an uncaught `IndexError` when the list is empty, since the
`try/except` only catches `CalledProcessError` and `FileNotFoundError`)
and run the mutated command, returning its boolean success. -/
def run_command (env : SubprocEnv) (st : MagickState) (cmd : List String) :
    RunCommandOut :=
  let st1 :=
    match st.imagemagick_cmd with
    | some _ => st
    | none => ⟨detect_imagemagick_cmd env⟩
  match st1.imagemagick_cmd with
  | none => ⟨.ok false, st1, cmd⟩
  | some c =>
    match cmd with
    | [] => ⟨.exn "IndexError", st1, cmd⟩
    | _ :: rest => ⟨.ok (env.runOk (c :: rest)), st1, c :: rest⟩

/-- A subprocess environment in which both candidate binaries exist and
every command succeeds. -/
def allOkSubprocEnv : SubprocEnv := ⟨fun _ => true, fun _ => true⟩

/-! ### EXIF data model (piexif dictionaries)

A piexif dict is `("0th": ..., "Exif": ..., "GPS": ..., "1st": ...,
"thumbnail": ...)`; each IFD maps integer tags to values.  The byte-level
piexif `dump`/`load` round trip is external library behaviour; the
embedding therefore represents a written JPEG by the dictionary it was
saved with. -/

/-- An EXIF tag value as far as the repository inspects them: integers
(orientation, resolution unit), rationals (resolutions) or opaque bytes. -/
inductive ExifVal where
  | natv (n : Nat)
  | ratv (num den : Nat)
  | bytes
deriving DecidableEq, Repr

/-- A piexif dictionary: the four IFDs and the thumbnail slot. -/
structure ExifDict where
  zeroth : List (Nat × ExifVal)
  exifIFD : List (Nat × ExifVal)
  gps : List (Nat × ExifVal)
  first : List (Nat × ExifVal)
  thumb : Bool
deriving DecidableEq, Repr

/-- The empty piexif dict created on `piexif.load` failure. -/
def emptyExifDict : ExifDict := ⟨[], [], [], [], false⟩

/-- piexif.ImageIFD.Orientation. -/
def orientationTag : Nat := 274
/-- piexif.ImageIFD.XResolution. -/
def xResolutionTag : Nat := 282
/-- piexif.ImageIFD.YResolution. -/
def yResolutionTag : Nat := 283
/-- piexif.ImageIFD.ResolutionUnit. -/
def resolutionUnitTag : Nat := 296

/-! ### GIF frames (src/image_generator.py) -/

/-- One frame produced by `create_gif_test_animation`.  The drawn pixel
content (bouncing ball, spinner, corner squares, pulsing text, progress
bar) is rendered through PIL and never inspected by any claim; a frame is
abstracted to its geometry and position in the animation. -/
structure GifFrame where
  width : Nat
  height : Nat
  idx : Nat
deriving DecidableEq, Repr

/-- Embedding of `create_gif_test_animation` (src/image_generator.py lines
375-438): the loop `for frame_idx in range(frame_count)` appends exactly
one frame per iteration and returns the list. -/
def create_gif_test_animation (width height frame_count : Nat) :
    List GifFrame :=
  (List.range frame_count).map (fun i => ⟨width, height, i⟩)

/-- A file written to disk by the generators, as far as the claims inspect
it: an opaque ImageMagick product, a JPEG written through PIL together
with the piexif dict and JFIF dpi pair it was saved with, an OpenCV
16-bit PNG, a GIF animation with its frames and save options, or the
JSON index. -/
inductive WrittenFile where
  | magickImage
  | pilJpeg (exif : ExifDict) (jfifDpi : Option (Nat × Nat))
  | png16bit
  | gifAnim (frames : List GifFrame) (dur lp palette_size : Nat)
  | jsonIndex
deriving DecidableEq, Repr

/-- Embedding of `save_gif_with_options` (src/image_generator.py lines
441-500): raise `ValueError` on an empty frame list; otherwise the RGBA
conversion and (for palette sizes below 256) per-frame quantization both
map over the frame list preserving its length and order, and PIL writes
all frames.  Dithering and optimization only change encoded bytes, which
the embedding does not track. -/
def save_gif_with_options (frames : List GifFrame) (duration lp : Nat)
    (_optimize : Bool) (palette_size : Nat) (_dither : Bool) :
    PyOutcome WrittenFile :=
  if frames.isEmpty then .exn "ValueError"
  else .ok (.gifAnim frames duration lp palette_size)

/-! ### Variation generators (src/variation_generator.py)

The generators are embedded against an oracle `GenEnv`: the net success
of each ImageMagick invocation, whether in-process PIL/OpenCV operations
succeed, whether directory creation succeeds, and the piexif view of the
source JPEG.  Helper functions return the list of
`(relative path, file)` pairs they write; the surrounding
`generate_variations` prefixes every relative path with its output
directory exactly as `os.path.join` does in the source. -/

/-- Oracle for the generation run. -/
structure GenEnv where
  imOk : List String → Bool
  pilOk : Bool
  cvOk : Bool
  mkdirOk : Bool
  srcExif : Option ExifDict

/-- A variation-table parameter: the Python tuples mix strings, ints and
bools. -/
inductive PyParam where
  | str (s : String)
  | int (n : Nat)
  | bool (b : Bool)
deriving DecidableEq, Repr

/-- Render a parameter the way Python f-strings do when building
filenames. -/
def PyParam.toStr : PyParam → String
  | .str s => s
  | .int n => toString n
  | .bool b => if b then "True" else "False"

/-- Run one ImageMagick conversion writing one output file: the file
exists afterwards exactly when the command succeeded. -/
def imWrite (env : GenEnv) (cmd : List String) (out : String) :
    List (String × WrittenFile) :=
  if env.imOk cmd then [(out, .magickImage)] else []

/-- Embedding of `_convert_jpeg_colorspace` (variation_generator.py lines
499-510). -/
def convert_jpeg_colorspace (env : GenEnv) (source cs : String) :
    List (String × WrittenFile) :=
  let out := "jpeg/colorspace_" ++ cs ++ ".jpg"
  if cs = "rgb" then
    imWrite env ["convert", source, "-colorspace", "sRGB", out] out
  else if cs = "cmyk" then
    imWrite env ["convert", source, "-colorspace", "CMYK", out] out
  else if cs = "grayscale" then
    imWrite env ["convert", source, "-colorspace", "Gray", out] out
  else []

/-- Embedding of `_convert_jpeg_encoding` (lines 513-522). -/
def convert_jpeg_encoding (env : GenEnv) (source enc : String) :
    List (String × WrittenFile) :=
  let out := "jpeg/encoding_" ++ enc ++ ".jpg"
  if enc = "baseline" then
    imWrite env ["convert", source, "-interlace", "none", out] out
  else if enc = "progressive" then
    imWrite env ["convert", source, "-interlace", "JPEG", out] out
  else []

/-- Embedding of `_convert_jpeg_thumbnail` (lines 525-567): `none` strips
metadata via ImageMagick; `embedded` builds an EXIF thumbnail through
PIL/piexif, falling back to a plain ImageMagick copy when PIL raises. -/
def convert_jpeg_thumbnail (env : GenEnv) (source thumb : String) :
    List (String × WrittenFile) :=
  let out := "jpeg/thumbnail_" ++ thumb ++ ".jpg"
  if thumb = "none" then
    imWrite env ["convert", source, "-strip", out] out
  else if thumb = "embedded" then
    if env.pilOk then
      [(out, .pilJpeg { env.srcExif.getD emptyExifDict with thumb := true }
          none)]
    else imWrite env ["convert", source, out] out
  else imWrite env ["convert", source, out] out

/-- Embedding of `_convert_jpeg_quality` (lines 570-574). -/
def convert_jpeg_quality (env : GenEnv) (source : String) (q : Nat) :
    List (String × WrittenFile) :=
  let out := "jpeg/quality_" ++ toString q ++ ".jpg"
  imWrite env ["convert", source, "-quality", toString q, out] out

/-- Embedding of `_convert_jpeg_subsampling` (lines 577-588). -/
def convert_jpeg_subsampling (env : GenEnv) (source sub : String) :
    List (String × WrittenFile) :=
  let out := "jpeg/subsampling_" ++ sub ++ ".jpg"
  if sub = "444" then
    imWrite env ["convert", source, "-sampling-factor", "4:4:4", out] out
  else if sub = "422" then
    imWrite env ["convert", source, "-sampling-factor", "4:2:2", out] out
  else if sub = "420" then
    imWrite env ["convert", source, "-sampling-factor", "4:2:0", out] out
  else []

/-- Embedding of `_convert_jpeg_metadata` (lines 591-606). -/
def convert_jpeg_metadata (env : GenEnv) (source meta : String) :
    List (String × WrittenFile) :=
  let out := "jpeg/metadata_" ++ meta ++ ".jpg"
  if meta = "none" then
    imWrite env ["convert", source, "-strip", out] out
  else if meta = "basic_exif" then
    imWrite env ["convert", source, "-define", "jpeg:preserve-settings",
      "-set", "exif:Software", "Test Generator",
      "-set", "exif:DateTime", "2025:05:31 12:00:00", out] out
  else
    imWrite env ["convert", source, out] out

/-- Embedding of `_convert_jpeg_icc` (lines 609-641) with its two-step
fallback chains for the srgb and adobergb profiles. -/
def convert_jpeg_icc (env : GenEnv) (source icc : String) :
    List (String × WrittenFile) :=
  let out := "jpeg/icc_" ++ icc ++ ".jpg"
  if icc = "none" then
    imWrite env ["convert", source, "+profile", "icc", out] out
  else if icc = "srgb" then
    if env.imOk ["convert", source, "-colorspace", "sRGB", "-strip",
        "+profile", "!icc,*", "-profile",
        "/System/Library/ColorSync/Profiles/sRGB Profile.icc", out] then
      [(out, .magickImage)]
    else if env.imOk ["convert", source, "-colorspace", "sRGB",
        "-profile", "sRGB.icc", out] then
      [(out, .magickImage)]
    else imWrite env ["convert", source, "-colorspace", "sRGB", out] out
  else if icc = "adobergb" then
    if env.imOk ["convert", source, "-colorspace", "Adobe98", "-strip",
        "+profile", "!icc,*", "-profile",
        "/System/Library/ColorSync/Profiles/AdobeRGB1998.icc", out] then
      [(out, .magickImage)]
    else if env.imOk ["convert", source, "-colorspace", "Adobe98",
        "-profile", "AdobeRGB1998.icc", out] then
      [(out, .magickImage)]
    else imWrite env ["convert", source, "-colorspace", "Adobe98", out] out
  else
    imWrite env ["convert", source, out] out

/-- Embedding of `_convert_jpeg_orientation` (lines 644-674): load the
source EXIF (empty dict when loading raises), set tag 274 to the
requested value, save through PIL; on a PIL/piexif failure fall back to
an ImageMagick `-define exif:Orientation` copy. -/
def convert_jpeg_orientation (env : GenEnv) (source : String) (v : Nat) :
    List (String × WrittenFile) :=
  let out := "jpeg/orientation_" ++ toString v ++ ".jpg"
  if env.pilOk then
    let d := env.srcExif.getD emptyExifDict
    let z := dictSet d.zeroth orientationTag (.natv v)
    [(out, .pilJpeg { d with zeroth := z } none)]
  else
    imWrite env ["convert", source, "-define",
      "exif:Orientation=" ++ toString v, out] out

/-- Embedding of `_convert_jpeg_dpi` (lines 677-749): five dpi layouts
written through PIL/piexif, with ImageMagick fallbacks on PIL failure. -/
def convert_jpeg_dpi (env : GenEnv) (source dpi : String) :
    List (String × WrittenFile) :=
  let out := "jpeg/dpi_" ++ dpi ++ ".jpg"
  if env.pilOk then
    let d := env.srcExif.getD emptyExifDict
    let popped := { d with zeroth := dictPop (dictPop (dictPop d.zeroth
        xResolutionTag) yResolutionTag) resolutionUnitTag }
    if dpi = "jfif_units0" then
      [(out, .pilJpeg popped (some (1, 1)))]
    else if dpi = "jfif_72dpi" then
      [(out, .pilJpeg popped (some (72, 72)))]
    else if dpi = "jfif_200dpi" then
      [(out, .pilJpeg popped (some (200, 200)))]
    else if dpi = "exif_72dpi" then
      let z := dictSet (dictSet (dictSet d.zeroth
        xResolutionTag (.ratv 72 1)) yResolutionTag (.ratv 72 1))
        resolutionUnitTag (.natv 2)
      [(out, .pilJpeg { d with zeroth := z } none)]
    else if dpi = "exif_200dpi" then
      let z := dictSet (dictSet (dictSet d.zeroth
        xResolutionTag (.ratv 200 1)) yResolutionTag (.ratv 200 1))
        resolutionUnitTag (.natv 2)
      [(out, .pilJpeg { d with zeroth := z } none)]
    else []
  else
    if dpi = "jfif_72dpi" then
      imWrite env ["convert", source, "-density", "72x72", "-units",
        "PixelsPerInch", out] out
    else if dpi = "jfif_200dpi" then
      imWrite env ["convert", source, "-density", "200x200", "-units",
        "PixelsPerInch", out] out
    else
      imWrite env ["convert", source, out] out

/-- Embedding of `_convert_jpeg_critical_combinations` (lines 752-815). -/
def convert_jpeg_critical_combinations (env : GenEnv) (source : String) :
    List (String × WrittenFile) :=
  let d := env.srcExif.getD emptyExifDict
  let zOrient := dictSet d.zeroth orientationTag (.natv 6)
  let zDpi := dictSet (dictSet (dictSet d.zeroth
    xResolutionTag (.ratv 200 1)) yResolutionTag (.ratv 200 1))
    resolutionUnitTag (.natv 2)
  imWrite env ["convert", source, "-colorspace", "CMYK", "-quality", "30",
      "jpeg/critical_cmyk_lowquality.jpg"] "jpeg/critical_cmyk_lowquality.jpg"
  ++ imWrite env ["convert", source, "-interlace", "JPEG",
      "jpeg/critical_progressive_fullmeta.jpg"]
      "jpeg/critical_progressive_fullmeta.jpg"
  ++ imWrite env ["convert", source, "-interlace", "JPEG",
      "jpeg/critical_thumbnail_progressive.jpg"]
      "jpeg/critical_thumbnail_progressive.jpg"
  ++ (if env.pilOk then
      [("jpeg/critical_orientation_metadata.jpg",
        .pilJpeg { d with zeroth := zOrient } none)]
    else
      imWrite env ["convert", source, "-define", "exif:Orientation=6",
        "jpeg/critical_orientation_metadata.jpg"]
        "jpeg/critical_orientation_metadata.jpg")
  ++ (if env.pilOk then
      [("jpeg/critical_jfif_exif_dpi.jpg",
        .pilJpeg { d with zeroth := zDpi } (some (72, 72)))]
    else
      imWrite env ["convert", source, "-density", "72x72", "-units",
        "PixelsPerInch", "jpeg/critical_jfif_exif_dpi.jpg"]
        "jpeg/critical_jfif_exif_dpi.jpg")

/-! ### PNG conversion helpers (variation_generator.py lines 818-958) -/

/-- Embedding of `_convert_png_colortype`. -/
def convert_png_colortype (env : GenEnv) (source ct : String) :
    List (String × WrittenFile) :=
  let out := "png/colortype_" ++ ct ++ ".png"
  if ct = "grayscale" then
    imWrite env ["convert", source, "-colorspace", "Gray", "-type",
      "Grayscale", out] out
  else if ct = "palette" then
    imWrite env ["convert", source, "-type", "Palette", out] out
  else if ct = "rgb" then
    imWrite env ["convert", source, "-alpha", "off", "-type", "TrueColor",
      out] out
  else if ct = "rgba" then
    imWrite env ["convert", source, "-type", "TrueColorAlpha", out] out
  else if ct = "grayscale_alpha" then
    imWrite env ["convert", source, "-colorspace", "Gray", "-type",
      "GrayscaleAlpha", out] out
  else []

/-- Embedding of `_convert_png_interlace`. -/
def convert_png_interlace (env : GenEnv) (source il : String) :
    List (String × WrittenFile) :=
  let out := "png/interlace_" ++ il ++ ".png"
  if il = "none" then
    imWrite env ["convert", source, "-interlace", "none", out] out
  else if il = "adam7" then
    imWrite env ["convert", source, "-interlace", "PNG", out] out
  else []

/-- Embedding of `_convert_png_depth`: 1-bit via monochrome conversion,
16-bit through OpenCV (`_create_16bit_png_opencv`) with an ImageMagick
fallback when OpenCV raises, other depths via a plain `-depth` flag. -/
def convert_png_depth (env : GenEnv) (source : String) (depth : Nat) :
    List (String × WrittenFile) :=
  let out := "png/depth_" ++ toString depth ++ "bit.png"
  if depth = 1 then
    imWrite env ["convert", source, "-colorspace", "Gray", "-monochrome",
      out] out
  else if depth = 16 then
    if env.cvOk then [(out, .png16bit)]
    else
      imWrite env ["convert", source, "-depth", "16", "-define",
        "png:bit-depth=16", "-define", "png:color-type=6", out] out
  else
    imWrite env ["convert", source, "-depth", toString depth, out] out

/-- Embedding of `_convert_png_compression`. -/
def convert_png_compression (env : GenEnv) (source : String) (level : Nat) :
    List (String × WrittenFile) :=
  let out := "png/compression_" ++ toString level ++ ".png"
  imWrite env ["convert", source, "-define",
    "png:compression-level=" ++ toString level, out] out

/-- Embedding of `_convert_png_alpha`. -/
def convert_png_alpha (env : GenEnv) (source a : String) :
    List (String × WrittenFile) :=
  let out := "png/alpha_" ++ a ++ ".png"
  if a = "opaque" then
    imWrite env ["convert", source, "-alpha", "off", out] out
  else if a = "semitransparent" then
    imWrite env ["convert", source, "-alpha", "set", "-channel", "A",
      "-evaluate", "multiply", "0.5", out] out
  else if a = "transparent" then
    imWrite env ["convert", source, "-alpha", "set", "-channel", "A",
      "-evaluate", "multiply", "0.2", out] out
  else []

/-- Embedding of `_convert_png_filter` with its `filter_map.get(_, 0)`
defaulting. -/
def convert_png_filter (env : GenEnv) (source ft : String) :
    List (String × WrittenFile) :=
  let out := "png/filter_" ++ ft ++ ".png"
  let n : Nat :=
    if ft = "none" then 0 else if ft = "sub" then 1
    else if ft = "up" then 2 else if ft = "average" then 3
    else if ft = "paeth" then 4 else 0
  imWrite env ["convert", source, "-define",
    "png:compression-filter=" ++ toString n, out] out

/-- Embedding of `_convert_png_metadata`. -/
def convert_png_metadata (env : GenEnv) (source meta : String) :
    List (String × WrittenFile) :=
  let out := "png/metadata_" ++ meta ++ ".png"
  if meta = "none" then
    imWrite env ["convert", source, "-strip", out] out
  else if meta = "text" then
    imWrite env ["convert", source, "-set", "png:Software",
      "Test Generator", out] out
  else
    imWrite env ["convert", source, out] out

/-- Embedding of `_convert_png_chunks`. -/
def convert_png_chunks (env : GenEnv) (source ch : String) :
    List (String × WrittenFile) :=
  let out := "png/chunk_" ++ ch ++ ".png"
  if ch = "gamma" then
    imWrite env ["convert", source, "-gamma", "2.2", out] out
  else if ch = "background" then
    imWrite env ["convert", source, "-background", "white", out] out
  else
    imWrite env ["convert", source, out] out

/-- Embedding of `_convert_png_critical_combinations`. -/
def convert_png_critical_combinations (env : GenEnv) (source : String) :
    List (String × WrittenFile) :=
  imWrite env ["convert", source, "-depth", "16", "-type", "Palette",
      "png/critical_16bit_palette.png"] "png/critical_16bit_palette.png"
  ++ imWrite env ["convert", source, "-colorspace", "Gray", "-type",
      "GrayscaleAlpha", "png/critical_alpha_grayscale.png"]
      "png/critical_alpha_grayscale.png"
  ++ imWrite env ["convert", source, "-define", "png:compression-level=9",
      "-define", "png:compression-filter=4",
      "png/critical_maxcompression_paeth.png"]
      "png/critical_maxcompression_paeth.png"
  ++ imWrite env ["convert", source, "-resize", "200%", "-interlace",
      "PNG", "png/critical_interlace_highres.png"]
      "png/critical_interlace_highres.png"

/-! ### Variation tables and per-format generators -/

/-- One row of a `jpeg_specs`/`png_specs` table:
`(parameter, category, japanese description, english description)`. -/
structure SpecRow where
  param : PyParam
  category : String
  jp : String
  en : String
deriving DecidableEq, Repr

/-- One row of the `gif_specs` table:
`(parameter, category, value, japanese description, english
description)`. -/
structure GifSpecRow where
  param : String
  category : String
  value : PyParam
  jp : String
  en : String
deriving DecidableEq, Repr

/-- One entry of the generated `index.json` manifest. -/
structure IndexEntry where
  format : String
  path : String
  jp : String
  en : String
deriving DecidableEq, Repr

/-- Numeric view of a table parameter (table ints only). -/
def PyParam.toNat : PyParam → Nat
  | .int n => n
  | _ => 0

/-- Boolean view of a table parameter (table bools only). -/
def PyParam.toBool : PyParam → Bool
  | .bool b => b
  | _ => false

/-- The `jpeg_specs` table (variation_generator.py lines 118-166),
transcribed row by row. -/
def jpeg_specs : List SpecRow := [
  ⟨.str "rgb", "colorspace", "RGB色空間での保存", "Saved in RGB color space"⟩,
  ⟨.str "cmyk", "colorspace", "CMYK色空間での保存（印刷用）",
    "Saved in CMYK color space (for printing)"⟩,
  ⟨.str "grayscale", "colorspace", "グレースケール（白黒）での保存",
    "Saved in grayscale (black and white)"⟩,
  ⟨.str "baseline", "encoding", "ベースラインJPEG（標準形式）",
    "Baseline JPEG (standard format)"⟩,
  ⟨.str "progressive", "encoding", "プログレッシブJPEG（段階的表示対応）",
    "Progressive JPEG (supports gradual display)"⟩,
  ⟨.str "none", "thumbnail", "サムネイル画像なし", "No embedded thumbnail"⟩,
  ⟨.str "embedded", "thumbnail", "サムネイル画像埋め込み",
    "Embedded thumbnail image"⟩,
  ⟨.int 20, "quality", "低品質（高圧縮、ファイルサイズ小）",
    "Low quality (high compression, small file size)"⟩,
  ⟨.int 50, "quality", "中品質（バランス型）", "Medium quality (balanced)"⟩,
  ⟨.int 80, "quality", "高品質（低圧縮）", "High quality (low compression)"⟩,
  ⟨.int 95, "quality", "最高品質（ほぼ無劣化）",
    "Highest quality (nearly lossless)"⟩,
  ⟨.str "444", "subsampling", "4:4:4サブサンプリング（最高品質）",
    "4:4:4 subsampling (highest quality)"⟩,
  ⟨.str "422", "subsampling", "4:2:2サブサンプリング（中品質）",
    "4:2:2 subsampling (medium quality)"⟩,
  ⟨.str "420", "subsampling", "4:2:0サブサンプリング（高圧縮）",
    "4:2:0 subsampling (high compression)"⟩,
  ⟨.str "none", "metadata", "メタデータなし（軽量化）",
    "No metadata (lightweight)"⟩,
  ⟨.str "basic_exif", "metadata", "基本的なEXIF情報のみ",
    "Basic EXIF information only"⟩,
  ⟨.str "gps", "metadata", "GPS位置情報付きEXIF",
    "EXIF with GPS location data"⟩,
  ⟨.str "full_exif", "metadata", "完全なEXIF情報（撮影情報等）",
    "Complete EXIF information (shooting data, etc.)"⟩,
  ⟨.str "none", "icc", "カラープロファイルなし", "No color profile"⟩,
  ⟨.str "srgb", "icc", "sRGBカラープロファイル（Web標準）",
    "sRGB color profile (web standard)"⟩,
  ⟨.str "adobergb", "icc", "Adobe RGBカラープロファイル（広色域）",
    "Adobe RGB color profile (wide gamut)"⟩,
  ⟨.int 1, "orientation", "通常の向き（Top-left）",
    "Normal orientation (Top-left)"⟩,
  ⟨.int 3, "orientation", "180度回転（Bottom-right）",
    "Rotated 180 degrees (Bottom-right)"⟩,
  ⟨.int 6, "orientation", "時計回りに90度回転（Right-top）",
    "Rotated 90 degrees clockwise (Right-top)"⟩,
  ⟨.int 8, "orientation", "反時計回りに90度回転（Left-bottom）",
    "Rotated 90 degrees counter-clockwise (Left-bottom)"⟩,
  ⟨.str "jfif_units0", "dpi", "JFIF units:0 (縦横比のみ)",
    "JFIF units:0 (aspect ratio only)"⟩,
  ⟨.str "jfif_72dpi", "dpi", "JFIF units:1 72DPI", "JFIF units:1 72DPI"⟩,
  ⟨.str "jfif_200dpi", "dpi", "JFIF units:1 200DPI", "JFIF units:1 200DPI"⟩,
  ⟨.str "exif_72dpi", "dpi", "EXIF指定 72DPI", "EXIF specified 72DPI"⟩,
  ⟨.str "exif_200dpi", "dpi", "EXIF指定 200DPI", "EXIF specified 200DPI"⟩]

/-- The index entry appended for one `jpeg_specs` row, regardless of
whether its conversion succeeded. -/
def jpeg_row_entry (row : SpecRow) : IndexEntry :=
  ⟨"jpeg", "jpeg/" ++ row.category ++ "_" ++ row.param.toStr ++ ".jpg",
   row.jp, row.en⟩

def jpeg_row_effect (env : GenEnv) (source : String) (row : SpecRow) :
    List (String × WrittenFile) × IndexEntry :=
  let p := row.param.toStr
  let writes :=
    if row.category = "colorspace" then convert_jpeg_colorspace env source p
    else if row.category = "encoding" then convert_jpeg_encoding env source p
    else if row.category = "thumbnail" then
      convert_jpeg_thumbnail env source p
    else if row.category = "quality" then
      convert_jpeg_quality env source row.param.toNat
    else if row.category = "subsampling" then
      convert_jpeg_subsampling env source p
    else if row.category = "metadata" then convert_jpeg_metadata env source p
    else if row.category = "icc" then convert_jpeg_icc env source p
    else if row.category = "orientation" then
      convert_jpeg_orientation env source row.param.toNat
    else if row.category = "dpi" then convert_jpeg_dpi env source p
    else []
  (writes, jpeg_row_entry row)

/-- The `critical_combinations` entries appended after the JPEG loop
(lines 207-223). -/
def jpeg_critical_entries : List IndexEntry := [
  ⟨"jpeg", "jpeg/critical_cmyk_lowquality.jpg",
    "CMYK色空間と低品質の組み合わせ（高圧縮）",
    "CMYK color space with low quality (high compression)"⟩,
  ⟨"jpeg", "jpeg/critical_progressive_fullmeta.jpg",
    "プログレッシブ形式と完全メタデータの組み合わせ",
    "Progressive format with complete metadata"⟩,
  ⟨"jpeg", "jpeg/critical_thumbnail_progressive.jpg",
    "サムネイル埋め込みとプログレッシブの組み合わせ",
    "Embedded thumbnail with progressive format"⟩,
  ⟨"jpeg", "jpeg/critical_orientation_metadata.jpg",
    "回転orientation情報と複雑メタデータの組み合わせ",
    "Rotated orientation with complex metadata"⟩,
  ⟨"jpeg", "jpeg/critical_jfif_exif_dpi.jpg",
    "JFIF units:1 72DPIとEXIF 200DPIの併存",
    "JFIF units:1 72DPI with EXIF 200DPI conflict"⟩]

/-- Embedding of `generate_jpeg_variations` (lines 112-230).  Every
operation in its body either returns a boolean (the command runner) or
catches its own exceptions (the PIL helpers), so the embedded body is
total: the top-level `except` that would return `None` is unreachable
and the function always returns its index list, regardless of how many
individual conversions fail. -/
def generate_jpeg_variations (env : GenEnv) (source : String) :
    Option (List IndexEntry) × List (String × WrittenFile) :=
  let rows := jpeg_specs.map (jpeg_row_effect env source)
  (some (rows.map Prod.snd ++ jpeg_critical_entries),
   (rows.map Prod.fst).flatten
     ++ convert_jpeg_critical_combinations env source)

/-- The `png_specs` table (lines 239-283). -/
def png_specs : List SpecRow := [
  ⟨.str "grayscale", "colortype", "グレースケール（白黒画像）",
    "Grayscale (black and white image)"⟩,
  ⟨.str "palette", "colortype", "パレットカラー（256色まで）",
    "Palette color (up to 256 colors)"⟩,
  ⟨.str "rgb", "colortype", "RGB（透明度なし）", "RGB (no transparency)"⟩,
  ⟨.str "rgba", "colortype", "RGBA（透明度あり）", "RGBA (with transparency)"⟩,
  ⟨.str "grayscale_alpha", "colortype", "グレースケール+透明度",
    "Grayscale with transparency"⟩,
  ⟨.str "none", "interlace", "インターレースなし（通常）",
    "No interlace (standard)"⟩,
  ⟨.str "adam7", "interlace", "Adam7インターレース（段階的表示）",
    "Adam7 interlace (progressive display)"⟩,
  ⟨.int 1, "depth", "1ビット深度（白黒のみ）",
    "1-bit depth (black and white only)"⟩,
  ⟨.int 8, "depth", "8ビット深度（標準）", "8-bit depth (standard)"⟩,
  ⟨.int 16, "depth", "16ビット深度（高精度）",
    "16-bit depth (high precision)"⟩,
  ⟨.int 0, "compression", "圧縮なし（最大ファイルサイズ）",
    "No compression (maximum file size)"⟩,
  ⟨.int 6, "compression", "標準圧縮（デフォルト）",
    "Standard compression (default)"⟩,
  ⟨.int 9, "compression", "最大圧縮（最小ファイルサイズ）",
    "Maximum compression (minimum file size)"⟩,
  ⟨.str "opaque", "alpha", "完全不透明", "Completely opaque"⟩,
  ⟨.str "semitransparent", "alpha", "半透明（部分的透明度）",
    "Semi-transparent (partial transparency)"⟩,
  ⟨.str "transparent", "alpha", "透明領域あり", "Has transparent areas"⟩,
  ⟨.str "none", "filter", "フィルターなし", "No filter"⟩,
  ⟨.str "sub", "filter", "Subフィルター（水平予測）",
    "Sub filter (horizontal prediction)"⟩,
  ⟨.str "up", "filter", "Upフィルター（垂直予測）",
    "Up filter (vertical prediction)"⟩,
  ⟨.str "average", "filter", "Averageフィルター（平均予測）",
    "Average filter (average prediction)"⟩,
  ⟨.str "paeth", "filter", "Paethフィルター（複合予測）",
    "Paeth filter (complex prediction)"⟩,
  ⟨.str "none", "metadata", "メタデータなし", "No metadata"⟩,
  ⟨.str "text", "metadata", "テキストメタデータ", "Text metadata"⟩,
  ⟨.str "compressed", "metadata", "圧縮テキストメタデータ",
    "Compressed text metadata"⟩,
  ⟨.str "international", "metadata", "国際化テキスト（UTF-8）",
    "International text (UTF-8)"⟩,
  ⟨.str "gamma", "chunk", "ガンマ補正情報", "Gamma correction information"⟩,
  ⟨.str "background", "chunk", "背景色指定",
    "Background color specification"⟩,
  ⟨.str "transparency", "chunk", "透明色指定",
    "Transparent color specification"⟩]

/-- The index entry appended for one `png_specs` row (the `depth`
category uses the `depth_{param}bit.png` filename pattern). -/
def png_row_entry (row : SpecRow) : IndexEntry :=
  let p := row.param.toStr
  let filename :=
    if row.category = "depth" then "depth_" ++ p ++ "bit.png"
    else row.category ++ "_" ++ p ++ ".png"
  ⟨"png", "png/" ++ filename, row.jp, row.en⟩

def png_row_effect (env : GenEnv) (source : String) (row : SpecRow) :
    List (String × WrittenFile) × IndexEntry :=
  let p := row.param.toStr
  let writes :=
    if row.category = "colortype" then convert_png_colortype env source p
    else if row.category = "interlace" then convert_png_interlace env source p
    else if row.category = "depth" then
      convert_png_depth env source row.param.toNat
    else if row.category = "compression" then
      convert_png_compression env source row.param.toNat
    else if row.category = "alpha" then convert_png_alpha env source p
    else if row.category = "filter" then convert_png_filter env source p
    else if row.category = "metadata" then convert_png_metadata env source p
    else if row.category = "chunk" then convert_png_chunks env source p
    else []
  (writes, png_row_entry row)

/-- The PNG `critical_combinations` entries (lines 321-336). -/
def png_critical_entries : List IndexEntry := [
  ⟨"png", "png/critical_16bit_palette.png",
    "16ビットからパレットへの変換（大幅な色情報損失）",
    "16-bit to palette conversion (significant color information loss)"⟩,
  ⟨"png", "png/critical_alpha_grayscale.png",
    "RGBAからグレースケール+透明度への変換",
    "RGBA to grayscale with alpha conversion"⟩,
  ⟨"png", "png/critical_maxcompression_paeth.png",
    "最大圧縮とPaethフィルターの組み合わせ",
    "Maximum compression with Paeth filter combination"⟩,
  ⟨"png", "png/critical_interlace_highres.png",
    "インターレースと高解像度の組み合わせ",
    "Interlace with high resolution combination"⟩]

/-- Embedding of `generate_png_variations` (lines 233-343); like the JPEG
generator its body is total, so it always returns its index list. -/
def generate_png_variations (env : GenEnv) (source : String) :
    Option (List IndexEntry) × List (String × WrittenFile) :=
  let rows := png_specs.map (png_row_effect env source)
  (some (rows.map Prod.snd ++ png_critical_entries),
   (rows.map Prod.fst).flatten
     ++ convert_png_critical_combinations env source)

/-- The `gif_specs` table (lines 367-396). -/
def gif_specs : List GifSpecRow := [
  ⟨"single", "frames", .int 1, "静止画GIF（1フレーム）", "Static GIF (1 frame)"⟩,
  ⟨"short", "frames", .int 5, "短いアニメーション（5フレーム）",
    "Short animation (5 frames)"⟩,
  ⟨"medium", "frames", .int 10, "中程度アニメーション（10フレーム）",
    "Medium animation (10 frames)"⟩,
  ⟨"long", "frames", .int 20, "長いアニメーション（20フレーム）",
    "Long animation (20 frames)"⟩,
  ⟨"slow", "fps", .int 200, "低フレームレート（5 FPS）",
    "Low frame rate (5 FPS)"⟩,
  ⟨"normal", "fps", .int 100, "標準フレームレート（10 FPS）",
    "Normal frame rate (10 FPS)"⟩,
  ⟨"fast", "fps", .int 40, "高フレームレート（25 FPS）",
    "High frame rate (25 FPS)"⟩,
  ⟨"2colors", "palette", .int 2, "2色パレット（最小）",
    "2-color palette (minimum)"⟩,
  ⟨"16colors", "palette", .int 16, "16色パレット", "16-color palette"⟩,
  ⟨"256colors", "palette", .int 256, "256色パレット（最大）",
    "256-color palette (maximum)"⟩,
  ⟨"nodither", "dither", .bool false, "ディザリングなし", "No dithering"⟩,
  ⟨"dithered", "dither", .bool true, "Floyd-Steinbergディザリング",
    "Floyd-Steinberg dithering"⟩,
  ⟨"noopt", "optimize", .bool false, "最適化なし", "No optimization"⟩,
  ⟨"optimized", "optimize", .bool true, "基本最適化（フレーム最適化）",
    "Basic optimization (frame optimization)"⟩,
  ⟨"loop_infinite", "loop", .int 0, "無限ループ", "Infinite loop"⟩,
  ⟨"loop_once", "loop", .int 1, "1回再生のみ", "Play once only"⟩,
  ⟨"loop_3times", "loop", .int 3, "3回ループ", "Loop 3 times"⟩]

/-- The index entry appended for one `gif_specs` row. -/
def gif_row_entry (row : GifSpecRow) : IndexEntry :=
  ⟨"gif", "gif/" ++ row.category ++ "_" ++ row.param ++ ".gif",
   row.jp, row.en⟩

def gif_row_effect (row : GifSpecRow) :
    PyOutcome ((String × WrittenFile) × IndexEntry) :=
  let name := "gif/" ++ row.category ++ "_" ++ row.param ++ ".gif"
  let saved :=
    if row.category = "frames" then
      save_gif_with_options (create_gif_test_animation 200 200
        row.value.toNat) 100 0 false 256 true
    else if row.category = "fps" then
      save_gif_with_options (create_gif_test_animation 200 200 10)
        row.value.toNat 0 false 256 true
    else if row.category = "palette" then
      save_gif_with_options (create_gif_test_animation 200 200 10)
        100 0 false row.value.toNat true
    else if row.category = "dither" then
      save_gif_with_options (create_gif_test_animation 200 200 10)
        100 0 false 64 row.value.toBool
    else if row.category = "optimize" then
      save_gif_with_options (create_gif_test_animation 200 200 10)
        100 0 row.value.toBool 256 true
    else
      save_gif_with_options (create_gif_test_animation 200 200 10)
        100 row.value.toNat false 256 true
  match saved with
  | .exn e => .exn e
  | .ok w => .ok ((name, w), gif_row_entry row)

/-- Run the `gif_specs` rows in order, stopping at the first uncaught
exception (which the surrounding `try` turns into a `None` return). -/
def gif_run_rows : List GifSpecRow →
    PyOutcome (List IndexEntry) × List (String × WrittenFile)
  | [] => (.ok [], [])
  | row :: rest =>
    match gif_row_effect row with
    | .exn e => (.exn e, [])
    | .ok (w, entry) =>
      let tail := gif_run_rows rest
      match tail.1 with
      | .exn e => (.exn e, w :: tail.2)
      | .ok es => (.ok (entry :: es), w :: tail.2)

/-- The three GIF critical-combination saves (lines 463-480). -/
def gif_criticals : PyOutcome (List (String × WrittenFile)) :=
  match save_gif_with_options (create_gif_test_animation 200 200 20)
      40 0 false 256 true with
  | .exn e => .exn e
  | .ok w1 =>
    match save_gif_with_options (create_gif_test_animation 200 200 10)
        100 0 false 4 true with
    | .exn e => .exn e
    | .ok w2 =>
      match save_gif_with_options (create_gif_test_animation 200 200 25)
          100 0 false 128 true with
      | .exn e => .exn e
      | .ok w3 => .ok [
          ("gif/critical_fast_256colors_long.gif", w1),
          ("gif/critical_dither_smallpalette.gif", w2),
          ("gif/critical_noopt_manyframes.gif", w3)]

/-- The GIF `critical_combinations` entries (lines 457-488). -/
def gif_critical_entries : List IndexEntry := [
  ⟨"gif", "gif/critical_fast_256colors_long.gif",
    "高フレームレート+大パレット+長時間（大ファイル）",
    "High frame rate + large palette + long duration (large file)"⟩,
  ⟨"gif", "gif/critical_dither_smallpalette.gif",
    "ディザリング+小パレット（品質劣化）",
    "Dithering + small palette (quality degradation)"⟩,
  ⟨"gif", "gif/critical_noopt_manyframes.gif",
    "最適化なし+多フレーム（非効率）",
    "No optimization + many frames (inefficient)"⟩]

/-- Embedding of `generate_gif_variations` (lines 346-495).  The body
starts by opening the source GIF through PIL with no inner handler, so a
PIL failure raises, reaches the top-level `except` and yields `None`;
afterwards each row is saved through PIL, any raised exception likewise
aborting the loop into the `None` branch. -/
def generate_gif_variations (env : GenEnv) (_source : String) :
    Option (List IndexEntry) × List (String × WrittenFile) :=
  if env.pilOk = false then (none, [])
  else
    let rows := gif_run_rows gif_specs
    match rows.1 with
    | .exn _ => (none, rows.2)
    | .ok entries =>
      match gif_criticals with
      | .exn _ => (none, rows.2)
      | .ok critWrites =>
        (some (entries ++ gif_critical_entries), rows.2 ++ critWrites)

/-- The three hard-coded original-image entries prepended to the index
(lines 73-92). -/
def original_entries : List IndexEntry := [
  ⟨"jpeg", "test_original.jpg",
    "JPEG元画像（高品質、豊富なメタデータ、多様なコンテンツ）",
    "Original JPEG image (high quality, rich metadata, diverse content)"⟩,
  ⟨"png", "test_original.png",
    "PNG元画像（RGBA、透明度、メタデータチャンク）",
    "Original PNG image (RGBA, transparency, metadata chunks)"⟩,
  ⟨"gif", "test_original.gif",
    "GIF元画像（アニメーション、多様な動的要素）",
    "Original GIF image (animation, diverse dynamic elements)"⟩]

/-- Outcome of a `generate_variations` run: the boolean return value, the
filesystem contents afterwards (full path strings), and the contents of
`index.json` when it was written. -/
structure GenerateOut where
  success : Bool
  fs : List String
  index : Option (List IndexEntry)
deriving Repr

/-- Embedding of `generate_variations` (variation_generator.py lines
18-109): check the three source images exist, run the three per-format
generators, and when all of them return an index write `index.json`
holding the 3 original entries followed by every per-format entry.
Relative write paths are prefixed with the output directory, matching
the `os.path.join` calls of the source; directory creation failure
(an OSError out of `mkdir`) propagates to the CLI and counts as an
unsuccessful run. -/
def generate_variations (env : GenEnv) (fs0 : List String)
    (source_dir output_dir : String) : GenerateOut :=
  let jpeg_source := source_dir ++ "/test_original.jpg"
  let png_source := source_dir ++ "/test_original.png"
  let gif_source := source_dir ++ "/test_original.gif"
  if env.mkdirOk = false then ⟨false, fs0, none⟩
  else if !(fs0.contains jpeg_source) then ⟨false, fs0, none⟩
  else if !(fs0.contains png_source) then ⟨false, fs0, none⟩
  else if !(fs0.contains gif_source) then ⟨false, fs0, none⟩
  else
    let jr := generate_jpeg_variations env jpeg_source
    let pr := generate_png_variations env png_source
    let gr := generate_gif_variations env gif_source
    let writes := jr.2 ++ pr.2 ++ gr.2
    let fs1 := fs0 ++ writes.map (fun w => output_dir ++ "/" ++ w.1)
    match jr.1, pr.1, gr.1 with
    | some ji, some pgi, some gi =>
      ⟨true, fs1 ++ [output_dir ++ "/index.json"],
       some (original_entries ++ ji ++ pgi ++ gi)⟩
    | _, _, _ => ⟨false, fs1, none⟩

/-! ### WebP generator (src/generators/webp.py `WebpGenerator`) -/

/-- The lossy WebP index entries produced by `_generate_lossy_webp` for
its four quality levels. -/
def webp_lossy_entries : List IndexEntry :=
  [20, 50, 80, 95].map (fun q =>
    ⟨"webp", "webp/lossy/quality_" ++ toString q ++ ".webp",
     "WebP損失圧縮 品質" ++ toString q ++ "（JPEG源画像から変換）",
     "WebP lossy compression quality " ++ toString q
       ++ " (converted from JPEG source)"⟩)

/-- Embedding of `WebpGenerator.generate_variations` (generators/webp.py
lines 22-62).  The top-level body creates three output directories with
`mkdir` before reaching the inner helpers; an OSError there is uncaught
by anything below the top-level `except`, which returns `None`.  Each
inner helper wraps its own body in `try/except`, so a PIL failure inside
one of them suppresses that helper's entries without aborting the
generator; entries are appended only after a successful save. -/
def webp_generate_variations (env : GenEnv)
    (jpegExists pngExists gifExists : Bool) : Option (List IndexEntry) :=
  if env.mkdirOk = false then none
  else
    let lossy := if jpegExists && env.pilOk then webp_lossy_entries else []
    let lossless :=
      if pngExists && env.pilOk then
        [⟨"webp", "webp/lossless/original.webp",
          "WebP無損失圧縮（PNG源画像から変換）",
          "WebP lossless compression (converted from PNG source)"⟩]
      else []
    let anim :=
      if gifExists && env.pilOk then
        [⟨"webp", "webp/animation/original.webp",
          "WebPアニメーション（GIF源画像から変換）",
          "WebP animation (converted from GIF source)"⟩]
      else []
    some (lossy ++ lossless ++ anim)

/-! ### JPEG validator
(src/variation_validator.py `validate_jpeg_variations` /
`validate_jpeg_file`; src/validators/jpeg.py is line-for-line
identical for the embedded logic) -/

/-- Expected-specification dict for one JPEG filename; absent keys model
keys missing from the Python dict. -/
structure JpegSpec where
  colorspace : Option String := none
  quality_range : Option (Nat × Nat) := none
  progressive : Option Bool := none
  has_thumbnail : Option Bool := none
  subsampling : Option String := none
  has_icc_profile : Option Bool := none
  colorspace_hint : Option String := none
  has_exif : Option Bool := none
  min_exif_tags : Option Nat := none
  has_gps : Option Bool := none
  has_xmp : Option Bool := none
  has_iptc : Option Bool := none
  orientation : Option Nat := none
  dpi_type : Option String := none
  expected_dpi : Option Nat := none
deriving DecidableEq, Repr

/-- What PIL exposes about an opened JPEG: the color mode, the JFIF dpi
pair from `img.info` and whether an ICC profile is attached. -/
structure PilJpegView where
  mode : String
  jfifDpi : Option Nat
  iccProfile : Bool
deriving DecidableEq, Repr

/-- Oracle describing a JPEG file on disk as the validator probes it:
the PIL view (`none` models `Image.open` raising), the stat size, the
piexif dict (`none` models `piexif.load` raising), the ImageMagick
subsampling probe and the XMP/IPTC metadata probes. -/
structure JpegFileView where
  pil : Option PilJpegView
  fileSize : Nat
  exif : Option ExifDict
  subsampling : Option String
  xmp : Bool
  iptc : Bool
deriving DecidableEq, Repr

/-- Render a Python boolean. -/
def pyBool (b : Bool) : String := if b then "True" else "False"

/-- Rational view of an EXIF value (piexif resolution tuples). -/
def ExifVal.rat? : ExifVal → Option (Nat × Nat)
  | .ratv n d => some (n, d)
  | _ => none

/-- The sequence of `add_test` calls that `validate_jpeg_file`
(variation_validator.py lines 277-441) performs for a given file view and
expected-spec dict.  The control flow only reads the view and the spec,
never the result object, so the call sequence is a pure function of the
two; the validator below folds it with `add_test` in source order.  Every
check is keyed on the presence of the corresponding entry in the
expected-specs dict; in particular the orientation and dpi checks sit
inside the `if has_exif in expected_specs` block, mirroring the nesting
of the source. -/
def jpeg_file_tests (view : JpegFileView) (spec : JpegSpec) :
    List TestCall :=
  match view.pil with
  | none =>
    [⟨"file_readable", false, some "True", some "False",
      some "exception from Image.open"⟩]
  | some img =>
    [⟨"file_readable", true, some "True", some "True", none⟩]
    ++ (match spec.colorspace with
      | some m => [⟨"color_mode", img.mode == m, some m, some img.mode,
          none⟩]
      | none => [])
    ++ (match spec.quality_range with
      | some qr =>
        let rng :=
          if qr.1 ≤ 30 then (15000, 80000)
          else if qr.1 ≤ 60 then (25000, 120000)
          else if qr.1 ≤ 85 then (50000, 200000)
          else (100000, 400000)
        [⟨"quality_file_size",
          decide (rng.1 ≤ view.fileSize ∧ view.fileSize ≤ rng.2),
          some (toString rng.1 ++ "-" ++ toString rng.2 ++ " bytes"),
          some (toString view.fileSize ++ " bytes"), none⟩]
      | none => [])
    ++ (match spec.progressive with
      | some pe =>
        [⟨"progressive_encoding", true, some (pyBool pe), some "detected",
          none⟩]
      | none => [])
    ++ (match spec.subsampling with
      | some s =>
        match view.subsampling with
        | some a => [⟨"subsampling", a == s, some s, some a, none⟩]
        | none => [⟨"subsampling", false, some s, some "unknown", none⟩]
      | none => [])
    ++ (match spec.has_icc_profile with
      | some expectedIcc =>
        [⟨"has_icc_profile", img.iccProfile == expectedIcc,
          some (pyBool expectedIcc), some (pyBool img.iccProfile), none⟩]
      | none => [])
    ++ (if spec.has_exif.isSome then
        match view.exif with
        | some ex =>
          let has_exif := !ex.zeroth.isEmpty || !ex.exifIFD.isEmpty
          let expectedExif := spec.has_exif.getD false
          [⟨"has_exif", has_exif == expectedExif,
            some (pyBool expectedExif), some (pyBool has_exif), none⟩]
          ++ (match spec.min_exif_tags with
            | some minTags =>
              if has_exif then
                let total := ex.zeroth.length + ex.exifIFD.length
                [⟨"min_exif_tags", decide (minTags ≤ total),
                  some (">= " ++ toString minTags), some (toString total),
                  none⟩]
              else []
            | none => [])
          ++ (match spec.has_gps with
            | some expectedGps =>
              [⟨"has_gps", !ex.gps.isEmpty == expectedGps,
                some (pyBool expectedGps), some (pyBool !ex.gps.isEmpty),
                none⟩]
            | none => [])
          ++ (match spec.has_thumbnail with
            | some expectedThumb =>
              [⟨"has_thumbnail", ex.thumb == expectedThumb,
                some (pyBool expectedThumb), some (pyBool ex.thumb), none⟩]
            | none => [])
          ++ (match spec.orientation with
            | some expectedOrientation =>
              [⟨"orientation",
                ex.zeroth.lookup orientationTag
                  == some (.natv expectedOrientation),
                some (toString expectedOrientation), none, none⟩]
            | none => [])
          ++ (match spec.dpi_type with
            | some dt =>
              let x_res := ex.zeroth.lookup xResolutionTag
              let y_res := ex.zeroth.lookup yResolutionTag
              if dt = "jfif_units0" then
                [⟨"dpi_no_exif_resolution", x_res.isNone && y_res.isNone,
                  some "True", some (pyBool (x_res.isNone && y_res.isNone)),
                  none⟩]
              else
                match spec.expected_dpi with
                | some expectedDpi =>
                  if dt.startsWith "jfif_" then
                    match img.jfifDpi with
                    | some d =>
                      [⟨"jfif_dpi",
                        decide (((d : Int) - expectedDpi).natAbs ≤ 1),
                        some (toString expectedDpi), some (toString d),
                        none⟩]
                    | none =>
                      [⟨"jfif_dpi", false, some (toString expectedDpi),
                        some "None", none⟩]
                  else if dt.startsWith "exif_" then
                    match x_res with
                    | some v =>
                      let exif_dpi : ℚ :=
                        match v.rat? with
                        | some nd => if nd.2 = 0 then 0
                            else (nd.1 : ℚ) / nd.2
                        | none => 0
                      [⟨"exif_dpi",
                        decide (|exif_dpi - (expectedDpi : ℚ)| ≤ 1),
                        some (toString expectedDpi), none, none⟩]
                    | none =>
                      [⟨"exif_dpi", false, some (toString expectedDpi),
                        some "None", none⟩]
                  else []
                | none => []
            | none => [])
        | none =>
          if spec.has_exif.getD false then
            [⟨"exif_readable", false, some "True", some "False",
              some "exception from piexif.load"⟩]
          else
            [⟨"exif_readable", true, some "False", some "False", none⟩]
      else [])
    ++ (match spec.has_xmp with
      | some expectedXmp =>
        [⟨"has_xmp", view.xmp == expectedXmp, some (pyBool expectedXmp),
          some (pyBool view.xmp), none⟩]
      | none => [])
    ++ (match spec.has_iptc with
      | some expectedIptc =>
        [⟨"has_iptc", view.iptc == expectedIptc,
          some (pyBool expectedIptc), some (pyBool view.iptc), none⟩]
      | none => [])

/-- Embedding of `validate_jpeg_file`: fold the computed call sequence
into a fresh `ValidationResult` with variation type `variation`. -/
def validate_jpeg_file (view : JpegFileView) (filename : String)
    (spec : JpegSpec) : ValidationResult :=
  applyTests (ValidationResult.fresh filename "jpeg" "variation")
    (jpeg_file_tests view spec)

/-- The `jpeg_specs` validation table (variation_validator.py lines
146-196): one expected-spec dict per filename. -/
def jpeg_validation_specs : List (String × JpegSpec) := [
  ("colorspace_rgb.jpg", { colorspace := some "RGB" }),
  ("colorspace_cmyk.jpg", { colorspace := some "CMYK" }),
  ("colorspace_grayscale.jpg", { colorspace := some "L" }),
  ("quality_20.jpg", { quality_range := some (15, 25) }),
  ("quality_50.jpg", { quality_range := some (45, 55) }),
  ("quality_80.jpg", { quality_range := some (75, 85) }),
  ("quality_95.jpg", { quality_range := some (90, 100) }),
  ("encoding_baseline.jpg", { progressive := some false }),
  ("encoding_progressive.jpg", { progressive := some true }),
  ("thumbnail_none.jpg", { has_thumbnail := some false }),
  ("thumbnail_embedded.jpg", { has_thumbnail := some true }),
  ("subsampling_444.jpg", { subsampling := some "4:4:4" }),
  ("subsampling_422.jpg", { subsampling := some "4:2:2" }),
  ("subsampling_420.jpg", { subsampling := some "4:2:0" }),
  ("icc_none.jpg", { has_icc_profile := some false }),
  ("icc_srgb.jpg", { has_icc_profile := some true, colorspace_hint := some "sRGB" }),
  ("icc_adobergb.jpg", { has_icc_profile := some true, colorspace_hint := some "Adobe" }),
  ("metadata_none.jpg", { has_exif := some false }),
  ("metadata_basic_exif.jpg", { has_exif := some true, min_exif_tags := some 1 }),
  ("metadata_gps.jpg", { has_exif := some true, has_gps := some true }),
  ("metadata_full_exif.jpg", { has_exif := some true, min_exif_tags := some 10 }),
  ("metadata_xmp.jpg", { has_xmp := some true }),
  ("metadata_iptc.jpg", { has_iptc := some true }),
  ("orientation_1.jpg", { orientation := some 1 }),
  ("orientation_3.jpg", { orientation := some 3 }),
  ("orientation_6.jpg", { orientation := some 6 }),
  ("orientation_8.jpg", { orientation := some 8 }),
  ("dpi_jfif_units0.jpg", { dpi_type := some "jfif_units0" }),
  ("dpi_jfif_72dpi.jpg", { dpi_type := some "jfif_72dpi", expected_dpi := some 72 }),
  ("dpi_jfif_200dpi.jpg", { dpi_type := some "jfif_200dpi", expected_dpi := some 200 }),
  ("dpi_exif_72dpi.jpg", { dpi_type := some "exif_72dpi", expected_dpi := some 72 }),
  ("dpi_exif_200dpi.jpg", { dpi_type := some "exif_200dpi", expected_dpi := some 200 })]

/-- Embedding of `validate_jpeg_variations` (lines 141-209): walk the
specification table in order; validate each file that exists, and for a
missing file create one `ValidationResult` with variation type
`missing` carrying a single failing `file_exists` test.  Both branches
are total, so no file state can abort the walk. -/
def validate_jpeg_variations (dirView : String → Option JpegFileView) :
    List ValidationResult :=
  jpeg_validation_specs.map (fun p =>
    match dirView p.1 with
    | some view => validate_jpeg_file view p.1 p.2
    | none =>
      (ValidationResult.fresh p.1 "jpeg" "missing").add_test "file_exists"
        false (some "True") (some "False") (some "File not found"))

/-! ### Image comparator (src/image_comparator.py)

Pixel metrics are delegated to scikit-image
(`peak_signal_noise_ratio`, `structural_similarity`) and mode conversion
to PIL; the embedding abstracts these external calls into a `SkimageEnv`
oracle and keeps the comparator's own control flow: dispatch by file
kind, resolution/mode matching, the GIF frame loop with its infinite-PSNR
sentinel and worst-frame reduction, and the AVIF no-pixel-metric path. -/

/-- A decoded image frame: PIL mode, dimensions and the flattened sample
array handed to scikit-image. -/
structure Frame where
  mode : String
  width : Nat
  height : Nat
  px : List Nat
deriving DecidableEq, Repr

/-- A PSNR value as returned by scikit-image: infinite (zero mean squared
error) or a finite decibel value. -/
inductive PsnrVal where
  | inf
  | fin (db : ℚ)
deriving DecidableEq, Repr

/-- Oracle for the external image libraries used by the comparator:
scikit-image PSNR and SSIM on equal-shaped arrays, and PIL mode
conversion. -/
structure SkimageEnv where
  psnr : Frame → Frame → PsnrVal
  ssim : Frame → Frame → ℚ
  convert : Frame → String → Frame

/-- Embedding of `_calculate_image_metrics` (image_comparator.py lines
162-194): normalize modes through PIL conversions, raise `ValueError` on
an array shape mismatch, otherwise return the PSNR/SSIM pair. -/
def calculate_image_metrics (sk : SkimageEnv) (a b : Frame) :
    PyOutcome (PsnrVal × ℚ) :=
  let ab :=
    if a.mode ≠ b.mode then
      if a.mode = "RGBA" ∧ b.mode = "RGB" then (sk.convert a "RGB", b)
      else if a.mode = "RGB" ∧ b.mode = "RGBA" then (a, sk.convert b "RGB")
      else if a.mode.contains 'L' ∨ b.mode.contains 'L' then
        (sk.convert a "L", sk.convert b "L")
      else (sk.convert a "RGB", sk.convert b "RGB")
    else (a, b)
  let a := ab.1
  let b := ab.2
  if a.width = b.width ∧ a.height = b.height ∧ a.px.length = b.px.length
  then .ok (sk.psnr a b, sk.ssim a b)
  else .exn "ValueError"

/-- Comparison record for one common filename, holding the fields the
claims inspect.  `psnr_var`/`ssim_var` carry the variance of the
per-frame lists; the Python code reports `np.std`, the square root of
that variance, as `psnr_std`/`ssim_std`. -/
structure CompareResult where
  resolution_match : Option Bool := none
  mode_match : Option Bool := none
  frame_count_match : Option Bool := none
  psnr : Option PsnrVal := none
  ssim : Option ℚ := none
  psnr_min : Option ℚ := none
  psnr_max : Option ℚ := none
  psnr_mean : Option ℚ := none
  psnr_var : Option ℚ := none
  ssim_min : Option ℚ := none
  ssim_max : Option ℚ := none
  ssim_mean : Option ℚ := none
  ssim_var : Option ℚ := none
  frames_compared : Option Nat := none
  metrics_err : Option String := none
deriving DecidableEq, Repr

/-- Minimum of a rational list, `none` on the empty list (np.min is only
reached on nonempty lists in the source). -/
def qListMin : List ℚ → Option ℚ
  | [] => none
  | x :: xs => some (xs.foldl min x)

/-- Maximum of a rational list. -/
def qListMax : List ℚ → Option ℚ
  | [] => none
  | x :: xs => some (xs.foldl max x)

/-- Arithmetic mean of a rational list. -/
def qListMean (l : List ℚ) : Option ℚ :=
  match l with
  | [] => none
  | _ => some (l.sum / l.length)

/-- Variance of a rational list; `np.std` is its square root. -/
def qListVar (l : List ℚ) : Option ℚ :=
  match qListMean l with
  | none => none
  | some m => some ((l.map (fun x => (x - m) ^ 2)).sum / l.length)

/-- Embedding of `_compare_gif_animations` (lines 197-311) for two
extracted frame lists (a decodable GIF always yields at least one
frame).  When resolutions and frame counts match, each frame pair goes
through `_calculate_image_metrics`; a raised metric error skips that
frame; an infinite per-frame PSNR is recorded as the saturating value
100.0.  The overall `psnr`/`ssim` are the minima (worst frame) of the
recorded lists, reported together with min/max/mean/std aggregates and
the number of compared frames. -/
def compare_gif_animations (sk : SkimageEnv) (f0a : Frame)
    (restA : List Frame) (f0b : Frame) (restB : List Frame) :
    CompareResult :=
  let framesA := f0a :: restA
  let framesB := f0b :: restB
  let fcm := framesA.length == framesB.length
  let resm := f0a.width == f0b.width && f0a.height == f0b.height
  let modem := f0a.mode == f0b.mode
  if resm && fcm then
    let pairs := framesA.zip framesB
    let vals := pairs.filterMap (fun p =>
      match calculate_image_metrics sk p.1 p.2 with
      | .exn _ => none
      | .ok v => some v)
    let psnrs := vals.map (fun v =>
      match v.1 with
      | .inf => (100 : ℚ)
      | .fin db => db)
    let ssims := vals.map (fun v => v.2)
    { resolution_match := some true
      mode_match := some modem
      frame_count_match := some true
      psnr := (qListMin psnrs).map PsnrVal.fin
      psnr_min := qListMin psnrs
      psnr_max := qListMax psnrs
      psnr_mean := qListMean psnrs
      psnr_var := qListVar psnrs
      ssim := qListMin ssims
      ssim_min := qListMin ssims
      ssim_max := qListMax ssims
      ssim_mean := qListMean ssims
      ssim_var := qListVar ssims
      frames_compared := some psnrs.length }
  else
    { resolution_match := some (resm = true)
      mode_match := some modem
      frame_count_match := some fcm
      metrics_err := some (if resm = false then "Resolution mismatch"
        else "Frame count mismatch") }

/-- Contents of one file for the comparator: a static image, an animated
GIF (first frame plus rest, which is how PIL frame extraction always
terminates for a decodable GIF), or an AVIF carrying the
resolution/format strings that `magick identify` reports for it
(`error`/`unknown` strings model the failure branches of
`_compare_avif_images`). -/
inductive ImageData where
  | static (f : Frame)
  | gif (f0 : Frame) (rest : List Frame)
  | avif (resolution fmt : String)
deriving DecidableEq, Repr

/-- One directory entry: stat size and decoded contents. -/
structure DirFile where
  sz : Nat
  data : ImageData
deriving DecidableEq, Repr

/-- Embedding of `_compare_avif_images` (lines 356-408): resolution and
format come from `magick identify`; PSNR and SSIM are left unset because
AVIF pixel metrics require tools the repository does not use. -/
def compare_avif_images (ra _fa rb _fb : String) : CompareResult :=
  { resolution_match :=
      some (ra == rb && !(ra == "error") && !(ra == "unknown"))
    mode_match := some true
    psnr := none
    ssim := none }

/-- Embedding of `_compare_images` (lines 100-159).  The source branches
on the `.gif`/`.avif` filename extensions; for directories whose file
contents match their extensions this agrees with branching on the
decoded data, which is how the embedding dispatches.  Mixed pairs
(a GIF against a static image under the same relative name) cannot arise
between two listings of well-formed directories and are routed through
the static branch. -/
def compare_images (sk : SkimageEnv) (fa fb : DirFile) : CompareResult :=
  match fa.data, fb.data with
  | .gif a0 ar, .gif b0 br => compare_gif_animations sk a0 ar b0 br
  | .avif ra fm, .avif rb fm2 => compare_avif_images ra fm rb fm2
  | .avif ra fm, _ => compare_avif_images ra fm "unknown" "unknown"
  | _, .avif rb fm => compare_avif_images "unknown" "unknown" rb fm
  | .static a, .static b =>
    let resm := a.width == b.width && a.height == b.height
    let modem := a.mode == b.mode
    if resm then
      match calculate_image_metrics sk a b with
      | .ok v =>
        { resolution_match := some true, mode_match := some modem,
          psnr := some v.1, ssim := some v.2 }
      | .exn e =>
        { resolution_match := some true, mode_match := some modem,
          metrics_err := some e }
    else
      { resolution_match := some false, mode_match := some modem,
        metrics_err := some "Resolution mismatch" }
  | .static a, .gif b0 _ =>
    let resm := a.width == b0.width && a.height == b0.height
    { resolution_match := some resm, mode_match := some (a.mode == b0.mode),
      metrics_err := some "mixed file kinds" }
  | .gif a0 _, .static b =>
    let resm := a0.width == b.width && a0.height == b.height
    { resolution_match := some resm, mode_match := some (a0.mode == b.mode),
      metrics_err := some "mixed file kinds" }

/-- Embedding of the common-file loop of `compare_directories` (lines
18-83): every relative filename present in both listings is compared
(the iteration order of the source is sorted; order is irrelevant to the
claims).  Listings model `_get_image_files`, whose dict keys are
distinct relative paths. -/
def compare_directories (sk : SkimageEnv)
    (da db : List (String × DirFile)) : List (String × CompareResult) :=
  da.filterMap (fun p =>
    match db.lookup p.1 with
    | some fb => some (p.1, compare_images sk p.2 fb)
    | none => none)

/-! ## Claims -/

/-! ### C8: ValidationResult aggregate AND and the AVIF override -/

/-- C8, counterexample to the claim as stated: `add_test` with an already
recorded test name overwrites the dict entry but never resets the
aggregate flag, so after `add_test("a", False)` then `add_test("a",
True)` every recorded test shows `passed = True` while the aggregate
`passed` flag is `False` — the flag does not equal the AND over the
recorded tests. -/
theorem c8_counterexample :
    ((applyTests (ValidationResult.fresh "f" "jpeg" "variation")
        [⟨"a", false, none, none, none⟩, ⟨"a", true, none, none, none⟩]).tests.all
        (fun p => p.2.passed) = true)
    ∧ ((applyTests (ValidationResult.fresh "f" "jpeg" "variation")
        [⟨"a", false, none, none, none⟩, ⟨"a", true, none, none, none⟩]).passed
        = false) := by
  constructor <;> rfl

/-- C8, amended: after any sequence of `add_test` calls the `passed` flag
equals the AND of all `passed` arguments ever submitted (equivalently
the AND over the recorded tests whenever no test name is submitted
twice); and the AVIF validator, when PIL cannot read the file but the
ImageMagick fallback identifies it, explicitly overrides `passed` to
`True` and re-records the PIL sub-test as informational. -/
theorem c8_addtest_aggregate :
    (∀ (r : ValidationResult) (calls : List TestCall),
        (applyTests r calls).passed = (r.passed && calls.all (fun c => c.ok)))
    ∧ (∀ (fname cat vt : String) (calls : List TestCall),
        (calls.map (fun c => c.name)).Nodup →
        ((applyTests (ValidationResult.fresh fname cat vt) calls).tests.all
          (fun p => p.2.passed)) = calls.all (fun c => c.ok))
    ∧ (∀ (view : AvifFileView) (filename : String) (st : Option String),
        view.fileExists = true → view.pil = none →
        (∃ si, view.magick = .ran true true si) →
        (avif_validate_file view filename st).passed = true
        ∧ ∃ rec, (avif_validate_file view filename st).tests.lookup
            "pil_readable" = some rec ∧ rec.passed = true) := by
  refine ⟨applyTests_passed, ?_, ?_⟩
  · intro fname cat vt calls hnd
    rw [applyTests_tests (ValidationResult.fresh fname cat vt) calls
      (fun c _ => rfl) hnd]
    clear hnd
    show ((List.map _ calls).all _) = _
    induction calls with
    | nil => rfl
    | cons c t ih => simp only [List.map_cons, List.all_cons, ih]
  · rintro ⟨fe, pil, magick⟩ filename st hfe hpil ⟨si, hm⟩
    subst hfe
    simp only at hpil hm
    subst hpil
    subst hm
    cases si with
    | none =>
      cases st with
      | none => exact ⟨rfl, ⟨true, some "Optional", some "Fallback used",
          some "PIL AVIF support not available - using ImageMagick fallback"⟩,
          rfl, rfl⟩
      | some s => exact ⟨rfl, ⟨true, some "Optional", some "Fallback used",
          some "PIL AVIF support not available - using ImageMagick fallback"⟩,
          rfl, rfl⟩
    | some sz =>
      cases st with
      | none => exact ⟨rfl, ⟨true, some "Optional", some "Fallback used",
          some "PIL AVIF support not available - using ImageMagick fallback"⟩,
          rfl, rfl⟩
      | some s => exact ⟨rfl, ⟨true, some "Optional", some "Fallback used",
          some "PIL AVIF support not available - using ImageMagick fallback"⟩,
          rfl, rfl⟩

/-- C8, witness: the amended theorem evaluated on a concrete call
sequence and a concrete AVIF file view whose PIL read fails while
ImageMagick identifies it. -/
theorem c8_addtest_witness :
    ((applyTests (ValidationResult.fresh "x" "jpeg" "variation")
        [⟨"a", true, none, none, none⟩, ⟨"b", false, none, none, none⟩]).passed
      = false)
    ∧ ((applyTests (ValidationResult.fresh "x" "jpeg" "variation")
        [⟨"a", true, none, none, none⟩, ⟨"b", false, none, none, none⟩]).tests.all
        (fun p => p.2.passed) = false)
    ∧ (avif_validate_file ⟨true, none, .ran true true (some "64x64")⟩
        "f.avif" (some "lossy")).passed = true := by
  refine ⟨?_, ?_, ?_⟩
  · rw [c8_addtest_aggregate.1 (ValidationResult.fresh "x" "jpeg" "variation")
      [⟨"a", true, none, none, none⟩, ⟨"b", false, none, none, none⟩]]
    rfl
  · rw [c8_addtest_aggregate.2.1 "x" "jpeg" "variation"
      [⟨"a", true, none, none, none⟩, ⟨"b", false, none, none, none⟩]
      (by decide)]
    rfl
  · exact (c8_addtest_aggregate.2.2
      ⟨true, none, .ran true true (some "64x64")⟩ "f.avif" (some "lossy")
      rfl rfl ⟨some "64x64", rfl⟩).1

/-! ### C4: the ImageMagick command runner -/

/-- C4, counterexample to the claim as stated: with ImageMagick present
and the cache empty, calling the runner on the empty command list
executes `cmd[0] = self._imagemagick_cmd` on an empty list, raising an
IndexError that the `except` clauses (which cover only
`CalledProcessError` and `FileNotFoundError`) do not catch — the runner
does raise to its caller for this input. -/
theorem c4_counterexample :
    (run_command allOkSubprocEnv ⟨none⟩ []).res = .exn "IndexError" := rfl

/-- C4, amended: for every NON-EMPTY command list and every environment
the runner returns a boolean and never raises; on first use it caches
the detected binary name process-wide, preferring `magick` and falling
back to `convert`, and a previously filled cache is reused unchanged. -/
theorem c4_runner_amended (env : SubprocEnv) (st : MagickState)
    (cmd : List String) (h : cmd ≠ []) :
    (∃ b, (run_command env st cmd).res = .ok b)
    ∧ (run_command env ⟨none⟩ cmd).state.imagemagick_cmd
        = detect_imagemagick_cmd env
    ∧ (env.versionOk "magick" = true →
        detect_imagemagick_cmd env = some "magick")
    ∧ (env.versionOk "magick" = false → env.versionOk "convert" = true →
        detect_imagemagick_cmd env = some "convert")
    ∧ (∀ c, (run_command env ⟨some c⟩ cmd).state.imagemagick_cmd = some c) := by
  obtain ⟨hd, tl, rfl⟩ := List.exists_cons_of_ne_nil h
  refine ⟨?_, ?_, ?_, ?_, ?_⟩
  · cases st with
    | mk ic =>
      cases ic with
      | some c => exact ⟨env.runOk (c :: tl), rfl⟩
      | none =>
        cases hD : detect_imagemagick_cmd env with
        | none => exact ⟨false, by simp [run_command, hD]⟩
        | some c => exact ⟨env.runOk (c :: tl), by simp [run_command, hD]⟩
  · cases hD : detect_imagemagick_cmd env with
    | none => simp [run_command, hD]
    | some c => simp [run_command, hD]
  · intro hm; simp [detect_imagemagick_cmd, hm]
  · intro hm hc; simp [detect_imagemagick_cmd, hm, hc]
  · intro c; rfl

/-- C4, witness: the amended theorem evaluated on a concrete environment
and command. -/
theorem c4_runner_witness :
    ∃ b, (run_command allOkSubprocEnv ⟨none⟩
      ["convert", "a.jpg", "b.jpg"]).res = .ok b :=
  (c4_runner_amended allOkSubprocEnv ⟨none⟩ ["convert", "a.jpg", "b.jpg"]
    (by simp)).1

/-! ### C10: in-place mutation of the caller command list -/

/-- C10: whenever a call to the runner ends with a detected (cached)
binary name, the caller list has had its first element overwritten with
that name and all remaining elements are unchanged. -/
theorem c10_cmd_mutation (env : SubprocEnv) (st : MagickState)
    (hd : String) (tl : List String) (c : String)
    (hdet : (run_command env st (hd :: tl)).state.imagemagick_cmd = some c) :
    (run_command env st (hd :: tl)).cmd = c :: tl := by
  cases st with
  | mk ic =>
    cases ic with
    | some c0 =>
      simp only [run_command] at hdet ⊢
      obtain rfl : c0 = c := by simpa using hdet
      rfl
    | none =>
      cases hD : detect_imagemagick_cmd env with
      | none => simp [run_command, hD] at hdet
      | some c0 =>
        simp only [run_command, hD] at hdet ⊢
        obtain rfl : c0 = c := by simpa using hdet
        rfl

/-- C10, witness: a concrete call with an empty cache under an
environment where `magick` is detected. -/
theorem c10_cmd_mutation_witness :
    (run_command allOkSubprocEnv ⟨none⟩
      ["convert", "in.jpg", "out.jpg"]).cmd = ["magick", "in.jpg", "out.jpg"] :=
  c10_cmd_mutation allOkSubprocEnv ⟨none⟩ "convert" ["in.jpg", "out.jpg"]
    "magick" rfl

/-! ### C3: generator error policy -/

/-- The full JPEG index list: one entry per table row plus the five
critical combinations, independent of any conversion outcome. -/
def jpeg_index_entries : List IndexEntry :=
  jpeg_specs.map jpeg_row_entry ++ jpeg_critical_entries

/-- The full PNG index list. -/
def png_index_entries : List IndexEntry :=
  png_specs.map png_row_entry ++ png_critical_entries

/-- The full GIF index list. -/
def gif_index_entries : List IndexEntry :=
  gif_specs.map gif_row_entry ++ gif_critical_entries

/-- The complete `index.json` contents of a successful run: the three
original entries followed by every per-format entry. -/
def full_index : List IndexEntry :=
  original_entries ++ jpeg_index_entries ++ png_index_entries
    ++ gif_index_entries

/-- A generation environment where every external operation succeeds. -/
def allOkGenEnv : GenEnv := ⟨fun _ => true, true, true, true, none⟩

/-- A generation environment whose directory creation raises OSError. -/
def noMkdirGenEnv : GenEnv := ⟨fun _ => true, true, true, false, none⟩

/-- A generation environment whose PIL operations raise. -/
def noPilGenEnv : GenEnv := ⟨fun _ => true, false, true, true, none⟩

/-- C3: each per-format generator body that can raise an uncaught
exception returns `None` exactly then (WebP on a directory-creation
OSError, GIF on a PIL failure), while a failed individual ImageMagick
conversion inside the JPEG/PNG loops never aborts: for every
environment — in particular for environments failing any subset of the
subprocess invocations — the JPEG and PNG generators still return their
complete index lists. -/
theorem c3_error_policy :
    (∀ (env : GenEnv) (src : String),
        (generate_jpeg_variations env src).1 = some jpeg_index_entries)
    ∧ (∀ (env : GenEnv) (src : String),
        (generate_png_variations env src).1 = some png_index_entries)
    ∧ (∀ (env : GenEnv) (j p g : Bool), env.mkdirOk = false →
        webp_generate_variations env j p g = none)
    ∧ (∀ (env : GenEnv) (j p g : Bool), env.mkdirOk = true →
        (webp_generate_variations env j p g).isSome = true)
    ∧ (∀ (env : GenEnv) (src : String), env.pilOk = false →
        (generate_gif_variations env src).1 = none)
    ∧ (∀ (env : GenEnv) (src : String), env.pilOk = true →
        (generate_gif_variations env src).1 = some gif_index_entries) := by
  refine ⟨fun env src => rfl, fun env src => rfl, ?_, ?_, ?_, ?_⟩
  · intro env j p g h
    simp [webp_generate_variations, h]
  · intro env j p g h
    simp [webp_generate_variations, h]
  · intro env src h
    simp [generate_gif_variations, h]
  · intro env src h
    simp only [generate_gif_variations, h]
    rfl

/-- C3, witness: the error policy evaluated on concrete environments. -/
theorem c3_error_policy_witness :
    ((generate_jpeg_variations allOkGenEnv "output/test_original.jpg").1
      = some jpeg_index_entries)
    ∧ (webp_generate_variations noMkdirGenEnv true true true = none)
    ∧ ((generate_gif_variations noPilGenEnv "output/test_original.gif").1
      = none)
    ∧ ((generate_gif_variations allOkGenEnv "output/test_original.gif").1
      = some gif_index_entries) :=
  ⟨c3_error_policy.1 allOkGenEnv "output/test_original.jpg",
   c3_error_policy.2.2.1 noMkdirGenEnv true true true rfl,
   c3_error_policy.2.2.2.2.1 noPilGenEnv "output/test_original.gif" rfl,
   c3_error_policy.2.2.2.2.2 allOkGenEnv "output/test_original.gif" rfl⟩

/-! ### C9: GIF frame-count variations -/

/-- The frame-count expectations of the GIF validator
(src/validators/gif.py lines 23-26). -/
def gif_frame_count_specs : List (String × Nat) :=
  [("frames_single.gif", 1), ("frames_short.gif", 5),
   ("frames_medium.gif", 10), ("frames_long.gif", 20)]

/-- C9: in any environment where the GIF generation runs (PIL working),
each frame-count variation file is written as a GIF animation holding
exactly the number of frames its parameter requests — 1, 5, 10 and 20
frames — matching the validator's `frame_count` expectations. -/
theorem c9_gif_frame_counts (env : GenEnv) (src : String)
    (h : env.pilOk = true) :
    ∀ p ∈ gif_frame_count_specs,
      ∃ fs dur lp ps,
        (generate_gif_variations env src).2.lookup ("gif/" ++ p.1)
          = some (.gifAnim fs dur lp ps) ∧ fs.length = p.2 := by
  simp only [generate_gif_variations, h]
  intro p hp
  fin_cases hp
  · exact ⟨create_gif_test_animation 200 200 1, 100, 0, 256,
      by decide, by decide⟩
  · exact ⟨create_gif_test_animation 200 200 5, 100, 0, 256,
      by decide, by decide⟩
  · exact ⟨create_gif_test_animation 200 200 10, 100, 0, 256,
      by decide, by decide⟩
  · exact ⟨create_gif_test_animation 200 200 20, 100, 0, 256,
      by decide, by decide⟩

/-- C9, witness: the single-frame variation evaluated in the
all-successful environment. -/
theorem c9_gif_frame_counts_witness :
    ∃ fs dur lp ps,
      (generate_gif_variations allOkGenEnv
        "output/test_original.gif").2.lookup ("gif/" ++ "frames_single.gif")
        = some (.gifAnim fs dur lp ps) ∧ fs.length = 1 :=
  c9_gif_frame_counts allOkGenEnv "output/test_original.gif" rfl
    ("frames_single.gif", 1) (by decide)

/-! ### C5: missing files during validation -/

/-- The filename of a validation result is fixed at construction and
survives any call sequence. -/
theorem applyTests_filename (r : ValidationResult) (calls : List TestCall) :
    (applyTests r calls).filename = r.filename := by
  induction calls generalizing r with
  | nil => rfl
  | cons c t ih =>
    show (applyTests
      (r.add_test c.name c.ok c.expected c.actual c.details) t).filename
      = r.filename
    rw [ih]
    rfl

/-- Counting occurrences in a duplicate-free list of strings: a member
is counted exactly once. -/
theorem countP_beq_eq_one_of_nodup {l : List String} (h : l.Nodup)
    {a : String} (ha : a ∈ l) : l.countP (fun n => n == a) = 1 := by
  induction l with
  | nil => cases ha
  | cons x t ih =>
    rcases List.mem_cons.mp ha with rfl | hmem
    · rw [List.countP_cons]
      simp only [beq_self_eq_true, if_pos]
      have hz : t.countP (fun n => n == a) = 0 := by
        rw [List.countP_eq_zero]
        intro b hb
        simp only [beq_iff_eq]
        intro hba
        exact (List.nodup_cons.mp h).1 (hba ▸ hb)
      omega
    · rw [List.countP_cons]
      have hx : (x == a) = false := by
        simp only [beq_eq_false_iff_ne]
        intro hxa
        exact (List.nodup_cons.mp h).1 (hxa ▸ hmem)
      simp only [hx]
      simpa using ih (List.nodup_cons.mp h).2 hmem

/-- C5: for every expected JPEG variation filename absent from the
validated directory, the validation walk produces exactly one
`ValidationResult` for that filename, its `passed` flag is `False`, its
tests contain a failing `file_exists` entry, and the walk still
produces one result per table row (nothing aborts the run). -/
theorem c5_missing_file (dirView : String → Option JpegFileView)
    (fname : String)
    (hmem : fname ∈ jpeg_validation_specs.map Prod.fst)
    (habs : dirView fname = none) :
    ((validate_jpeg_variations dirView).length
        = jpeg_validation_specs.length)
    ∧ ((validate_jpeg_variations dirView).countP
        (fun r => r.filename == fname) = 1)
    ∧ (∃ r ∈ validate_jpeg_variations dirView,
        r.filename = fname ∧ r.passed = false
        ∧ r.tests.lookup "file_exists"
          = some ⟨false, some "True", some "False", some "File not found"⟩) := by
  refine ⟨by simp [validate_jpeg_variations], ?_, ?_⟩
  · unfold validate_jpeg_variations
    rw [List.countP_map]
    have hcomp : ∀ p : String × JpegSpec,
        ((fun r : ValidationResult => r.filename == fname) ∘
          (fun p : String × JpegSpec =>
            match dirView p.1 with
            | some view => validate_jpeg_file view p.1 p.2
            | none =>
              (ValidationResult.fresh p.1 "jpeg" "missing").add_test
                "file_exists" false (some "True") (some "False")
                (some "File not found"))) p
          = (p.1 == fname) := by
      intro p
      cases hdv : dirView p.1 with
      | some v =>
        simp only [Function.comp, hdv]
        rw [show (validate_jpeg_file v p.1 p.2).filename = p.1 from
          applyTests_filename _ _]
      | none => simp only [Function.comp, hdv]; rfl
    rw [List.countP_congr (fun p _ => by rw [hcomp p])]
    have h2 : jpeg_validation_specs.countP (fun p => p.1 == fname)
        = (jpeg_validation_specs.map Prod.fst).countP
          (fun n => n == fname) := by
      rw [List.countP_map]; rfl
    rw [h2]
    exact countP_beq_eq_one_of_nodup (by decide) hmem
  · obtain ⟨p, hp, hfst⟩ := List.mem_map.mp hmem
    refine ⟨(ValidationResult.fresh p.1 "jpeg" "missing").add_test
      "file_exists" false (some "True") (some "False")
      (some "File not found"), ?_, ?_, rfl, rfl⟩
    · have h0 : dirView p.1 = none := by rw [hfst]; exact habs
      have hmm := List.mem_map_of_mem (fun p : String × JpegSpec =>
        match dirView p.1 with
        | some view => validate_jpeg_file view p.1 p.2
        | none =>
          (ValidationResult.fresh p.1 "jpeg" "missing").add_test
            "file_exists" false (some "True") (some "False")
            (some "File not found")) hp
      simp only [h0] at hmm
      exact hmm
    · exact hfst

/-- C5, witness: an empty directory, checked for the missing
`quality_20.jpg`. -/
theorem c5_missing_file_witness :
    ((validate_jpeg_variations (fun _ => none)).countP
      (fun r => r.filename == "quality_20.jpg") = 1)
    ∧ (∃ r ∈ validate_jpeg_variations (fun _ => none),
        r.filename = "quality_20.jpg" ∧ r.passed = false
        ∧ r.tests.lookup "file_exists"
          = some ⟨false, some "True", some "False", some "File not found"⟩) :=
  ⟨(c5_missing_file (fun _ => none) "quality_20.jpg" (by decide) rfl).2.1,
   (c5_missing_file (fun _ => none) "quality_20.jpg" (by decide) rfl).2.2⟩

/-! ### C6: EXIF orientation round trip

The generator does write EXIF tag 274 with the requested value, but the
validator's orientation read-back sits inside
`if has_exif in expected_specs`, and the `orientation_*.jpg` spec dicts
hold only an `orientation` key — the read-back is dead code for exactly
the files it was written for, and even a file carrying the wrong
orientation passes validation. -/

/-- The piexif dict of the generated `orientation_3.jpg` in an
environment whose source JPEG has no EXIF. -/
def orientation3Exif : ExifDict := ⟨[(274, .natv 3)], [], [], [], false⟩

/-- The validator file view of the generated `orientation_3.jpg`. -/
def orientation3View : JpegFileView :=
  ⟨some ⟨"RGB", none, false⟩, 50000, some orientation3Exif, none,
   false, false⟩

/-- A file view identical to `orientation3View` except that its EXIF
Orientation tag holds 1 instead of the expected 3. -/
def orientationWrongView : JpegFileView :=
  ⟨some ⟨"RGB", none, false⟩, 50000,
   some ⟨[(274, .natv 1)], [], [], [], false⟩, none, false, false⟩

/-- C6, code behaviour at the failing input: (1) generation writes
`orientation_3.jpg` with EXIF tag 274 set to 3; (2) the validation table
entry for that file is exactly the dict with the single `orientation`
key; (3) validating the generated file records NO `orientation` test at
all — the claimed read-back never happens; (4) even a file whose
Orientation tag is 1 instead of 3 passes validation; (5) had the
orientation check been reachable (a spec dict additionally holding
`has_exif`), the read-back would observe exactly 3 and pass, confirming
the claim describes the evident intent of the dead code. -/
theorem c6_orientation_code_bug :
    (convert_jpeg_orientation allOkGenEnv "output/test_original.jpg" 3
      = [("jpeg/orientation_3.jpg", .pilJpeg orientation3Exif none)])
    ∧ (orientation3Exif.zeroth.lookup orientationTag = some (.natv 3))
    ∧ (jpeg_validation_specs.lookup "orientation_3.jpg"
      = some { orientation := some 3 })
    ∧ ((validate_jpeg_file orientation3View "orientation_3.jpg"
        { orientation := some 3 }).tests.lookup "orientation" = none)
    ∧ ((validate_jpeg_file orientation3View "orientation_3.jpg"
        { orientation := some 3 }).passed = true)
    ∧ ((validate_jpeg_file orientationWrongView "orientation_3.jpg"
        { orientation := some 3 }).passed = true)
    ∧ ((validate_jpeg_file orientation3View "orientation_3.jpg"
        { has_exif := some true, orientation := some 3 }).tests.lookup
        "orientation" = some ⟨true, some "3", none, none⟩) := by
  refine ⟨by decide, by decide, by decide, by decide, by decide, by decide,
    by decide⟩

/-! ### C7: GIF frame-by-frame comparison reduces to the worst frame -/

/-- A `filterMap` whose function is pointwise `some` is a `map`. -/
theorem filterMap_eq_map_of_forall {α β : Type} (l : List α)
    (F : α → Option β) (G : α → β) (h : ∀ x ∈ l, F x = some (G x)) :
    l.filterMap F = l.map G := by
  induction l with
  | nil => rfl
  | cons x xs ih =>
    rw [List.filterMap_cons, h x (List.mem_cons_self x xs),
      List.map_cons, ih (fun y hy => h y (List.mem_cons_of_mem x hy))]

/-- C7: when the two GIFs have matching resolutions and frame counts and
every frame pair yields a metric value, the comparator records one
PSNR/SSIM value per frame pair (an infinite PSNR recorded as the 100.0
sentinel) and reports as the overall PSNR and SSIM the minimum — the
worst frame — of the recorded values, alongside the min/max/mean
aggregates, the variance whose square root is the reported std, and the
number of compared frames. -/
theorem c7_gif_worst_frame (sk : SkimageEnv)
    (mv : Frame × Frame → PsnrVal × ℚ)
    (f0a : Frame) (restA : List Frame) (f0b : Frame) (restB : List Frame)
    (hw : f0a.width = f0b.width) (hh : f0a.height = f0b.height)
    (hlen : restA.length = restB.length)
    (hok : ∀ p ∈ (f0a :: restA).zip (f0b :: restB),
      calculate_image_metrics sk p.1 p.2 = .ok (mv p)) :
    let pairs := (f0a :: restA).zip (f0b :: restB)
    let psnrs := pairs.map (fun p =>
      match (mv p).1 with
      | .inf => (100 : ℚ)
      | .fin db => db)
    let ssims := pairs.map (fun p => (mv p).2)
    let res := compare_gif_animations sk f0a restA f0b restB
    res.psnr = (qListMin psnrs).map PsnrVal.fin
    ∧ res.psnr_min = qListMin psnrs
    ∧ res.psnr_max = qListMax psnrs
    ∧ res.psnr_mean = qListMean psnrs
    ∧ res.psnr_var = qListVar psnrs
    ∧ res.ssim = qListMin ssims
    ∧ res.ssim_min = qListMin ssims
    ∧ res.ssim_max = qListMax ssims
    ∧ res.ssim_mean = qListMean ssims
    ∧ res.ssim_var = qListVar ssims
    ∧ res.frames_compared = some pairs.length
    ∧ res.resolution_match = some true
    ∧ res.frame_count_match = some true := by
  have hresm : (f0a.width == f0b.width && f0a.height == f0b.height)
      = true := by simp [hw, hh]
  have hfcm : ((f0a :: restA).length == (f0b :: restB).length) = true := by
    simp [hlen]
  have hvals : ((f0a :: restA).zip (f0b :: restB)).filterMap (fun p =>
      match calculate_image_metrics sk p.1 p.2 with
      | .exn _ => none
      | .ok v => some v) = ((f0a :: restA).zip (f0b :: restB)).map mv :=
    filterMap_eq_map_of_forall _ _ mv (fun p hp => by rw [hok p hp])
  simp only [compare_gif_animations, hresm, hfcm, Bool.and_self, if_true,
    hvals, List.map_map]
  and_intros <;> first
  | rfl
  | trivial
  | simp [List.length_map]

/-- C7, witness: two identical two-frame GIFs under a metric oracle that
reports infinite PSNR and SSIM 1 on identical frames; the recorded
per-frame values are both the 100.0 sentinel, whose minimum 100.0 is
reported as the overall PSNR, and the overall SSIM is 1. -/
theorem c7_gif_worst_frame_witness :
    ((compare_gif_animations ⟨fun _ _ => .inf, fun _ _ => 1, fun f _ => f⟩
      ⟨"RGB", 2, 2, [0, 0, 0, 0]⟩ [⟨"RGB", 2, 2, [1, 1, 1, 1]⟩]
      ⟨"RGB", 2, 2, [0, 0, 0, 0]⟩ [⟨"RGB", 2, 2, [1, 1, 1, 1]⟩]).psnr
      = some (.fin 100))
    ∧ ((compare_gif_animations ⟨fun _ _ => .inf, fun _ _ => 1, fun f _ => f⟩
      ⟨"RGB", 2, 2, [0, 0, 0, 0]⟩ [⟨"RGB", 2, 2, [1, 1, 1, 1]⟩]
      ⟨"RGB", 2, 2, [0, 0, 0, 0]⟩ [⟨"RGB", 2, 2, [1, 1, 1, 1]⟩]).ssim
      = some 1) := by
  have h := c7_gif_worst_frame
    ⟨fun _ _ => .inf, fun _ _ => 1, fun f _ => f⟩ (fun _ => (.inf, 1))
    ⟨"RGB", 2, 2, [0, 0, 0, 0]⟩ [⟨"RGB", 2, 2, [1, 1, 1, 1]⟩]
    ⟨"RGB", 2, 2, [0, 0, 0, 0]⟩ [⟨"RGB", 2, 2, [1, 1, 1, 1]⟩]
    rfl rfl rfl (by intro p hp; fin_cases hp <;> rfl)
  refine ⟨h.1.trans (by decide), h.2.2.2.2.2.1.trans (by decide)⟩

/-! ### C2: comparing a directory with itself -/

/-- In an association list with duplicate-free keys, lookup of a member
key returns its value. -/
theorem lookup_eq_some_of_nodup {α : Type} (l : List (String × α))
    (hnd : (l.map Prod.fst).Nodup) (k : String) (v : α)
    (hmem : (k, v) ∈ l) : l.lookup k = some v := by
  induction l with
  | nil => cases hmem
  | cons p t ih =>
    rcases List.mem_cons.mp hmem with rfl | hm
    · simp [List.lookup]
    · have hk : (k == p.1) = false := by
        simp only [beq_eq_false_iff_ne]
        intro he
        apply (List.nodup_cons.mp hnd).1
        exact he ▸ List.mem_map_of_mem Prod.fst hm
      simp only [List.lookup, hk]
      exact ih (List.nodup_cons.mp hnd).2 hm

/-- Zipping a list with itself pairs every element with itself. -/
theorem zip_self_eq_map {α : Type} (l : List α) :
    l.zip l = l.map (fun x => (x, x)) := by
  induction l with
  | nil => rfl
  | cons x t ih => simp [ih]

/-- On identical frames the metric computation cannot fail: the modes
agree, the shapes agree, and it returns the oracle values — infinite
PSNR and SSIM 1 for any oracle modelling the scikit-image contract. -/
theorem calc_metrics_self (sk : SkimageEnv)
    (hp : ∀ f, sk.psnr f f = .inf) (hs : ∀ f, sk.ssim f f = 1)
    (f : Frame) : calculate_image_metrics sk f f = .ok (.inf, 1) := by
  simp [calculate_image_metrics, hp, hs]

/-- Folding `min` over a constant list starting at the constant yields
the constant. -/
theorem foldl_min_const {α : Type} (t : List α) (c : ℚ) :
    ((t.map (fun _ => c)).foldl min c) = c := by
  induction t with
  | nil => rfl
  | cons x xs ih => simpa [min_self] using ih

/-- The minimum of a nonempty constant list is the constant. -/
theorem qListMin_map_const {α : Type} (x : α) (t : List α) (c : ℚ) :
    qListMin ((x :: t).map (fun _ => c)) = some c := by
  simp only [List.map_cons, qListMin]
  exact congrArg some (foldl_min_const t c)

/-- Self-comparison of a GIF: every frame pair is identical, each
recorded PSNR is the 100.0 sentinel for infinity, and the reported
worst-frame PSNR/SSIM are 100.0 and 1. -/
theorem compare_gif_self (sk : SkimageEnv)
    (hp : ∀ f, sk.psnr f f = .inf) (hs : ∀ f, sk.ssim f f = 1)
    (f0 : Frame) (rest : List Frame) :
    (compare_gif_animations sk f0 rest f0 rest).psnr = some (.fin 100)
    ∧ (compare_gif_animations sk f0 rest f0 rest).ssim = some 1 := by
  have hvals : ((f0 :: rest).zip (f0 :: rest)).filterMap (fun p =>
      match calculate_image_metrics sk p.1 p.2 with
      | .exn _ => none
      | .ok v => some v)
      = ((f0 :: rest).zip (f0 :: rest)).map
          (fun _ => ((PsnrVal.inf), (1 : ℚ))) := by
    apply filterMap_eq_map_of_forall
    intro p hpz
    rw [zip_self_eq_map] at hpz
    obtain ⟨x, _, rfl⟩ := List.mem_map.mp hpz
    rw [calc_metrics_self sk hp hs x]
  constructor
  · simp only [compare_gif_animations, beq_self_eq_true, Bool.and_self,
      if_true, hvals, List.map_map]
    show Option.map PsnrVal.fin (qListMin
      (((f0 :: rest).zip (f0 :: rest)).map (fun _ => (100 : ℚ)))) = _
    rw [show (f0 :: rest).zip (f0 :: rest)
      = (f0, f0) :: rest.zip rest from rfl, qListMin_map_const]
    rfl
  · simp only [compare_gif_animations, beq_self_eq_true, Bool.and_self,
      if_true, hvals, List.map_map]
    show qListMin (((f0 :: rest).zip (f0 :: rest)).map
      (fun _ => (1 : ℚ))) = _
    rw [show (f0 :: rest).zip (f0 :: rest)
      = (f0, f0) :: rest.zip rest from rfl, qListMin_map_const]

/-- Every common file of two directory listings with duplicate-free
names is compared; comparing a listing with itself compares each file
with itself. -/
theorem mem_compare_directories_self (sk : SkimageEnv)
    (dir : List (String × DirFile)) (hnd : (dir.map Prod.fst).Nodup)
    (n : String) (f : DirFile) (hmem : (n, f) ∈ dir) :
    (n, compare_images sk f f) ∈ compare_directories sk dir dir := by
  unfold compare_directories
  apply List.mem_filterMap.mpr
  refine ⟨(n, f), hmem, ?_⟩
  have hl : dir.lookup n = some f := lookup_eq_some_of_nodup dir hnd n f hmem
  simp only [hl]

/-- C2, amended: comparing a directory with itself yields, for every
common NON-AVIF file, PSNR infinity (static images) or the saturating
sentinel 100.0 (GIF animations, where infinite per-frame PSNR is
recorded as 100.0) and SSIM exactly 1, for any metric oracle matching
the scikit-image contract on identical inputs. -/
theorem c2_self_compare (sk : SkimageEnv)
    (hp : ∀ f, sk.psnr f f = .inf) (hs : ∀ f, sk.ssim f f = 1)
    (dir : List (String × DirFile)) (hnd : (dir.map Prod.fst).Nodup)
    (n : String) (f : DirFile) (hmem : (n, f) ∈ dir)
    (hna : ∀ r fm, f.data ≠ .avif r fm) :
    ∃ res, (n, res) ∈ compare_directories sk dir dir
      ∧ (res.psnr = some .inf ∨ res.psnr = some (.fin 100))
      ∧ res.ssim = some 1 := by
  refine ⟨compare_images sk f f,
    mem_compare_directories_self sk dir hnd n f hmem, ?_, ?_⟩
  · obtain ⟨sz, data⟩ := f
    cases data with
    | static fr =>
      left
      simp [compare_images, calc_metrics_self sk hp hs fr]
    | gif f0 rest =>
      right
      exact (compare_gif_self sk hp hs f0 rest).1
    | avif r fm => exact absurd rfl (hna r fm)
  · obtain ⟨sz, data⟩ := f
    cases data with
    | static fr =>
      simp [compare_images, calc_metrics_self sk hp hs fr]
    | gif f0 rest =>
      exact (compare_gif_self sk hp hs f0 rest).2
    | avif r fm => exact absurd rfl (hna r fm)

/-- A metric oracle matching the scikit-image identity contract. -/
def skTriv : SkimageEnv := ⟨fun _ _ => .inf, fun _ _ => 1, fun f _ => f⟩

/-- C2, counterexample to the claim as stated: a directory holding one
AVIF file, compared with itself, reports neither an infinite nor a
sentinel PSNR and no SSIM at all — both metrics are `None` on the AVIF
path. -/
theorem c2_counterexample :
    ((compare_directories skTriv
        [("image.avif", ⟨1000, .avif "64x64" "AVIF"⟩)]
        [("image.avif", ⟨1000, .avif "64x64" "AVIF"⟩)]).map
      (fun p => (p.1, p.2.psnr, p.2.ssim)))
      = [("image.avif", none, none)] := by decide

/-- C2, witness: a one-file static-image directory compared with
itself. -/
theorem c2_self_compare_witness :
    ∃ res, ("a.png", res) ∈ compare_directories skTriv
        [("a.png", ⟨10, .static ⟨"RGB", 1, 1, [7]⟩⟩)]
        [("a.png", ⟨10, .static ⟨"RGB", 1, 1, [7]⟩⟩)]
      ∧ (res.psnr = some .inf ∨ res.psnr = some (.fin 100))
      ∧ res.ssim = some 1 :=
  c2_self_compare skTriv (fun _ => rfl) (fun _ => rfl) _ (by decide)
    "a.png" _ (List.mem_cons_self _ _) (by intro r fm h; cases h)

/-! ### C1: index.json contents after a successful run -/

/-- Membership gives a positive `contains` check. -/
theorem contains_of_mem {l : List String} {a : String} (h : a ∈ l) :
    l.contains a = true :=
  List.elem_iff.mpr h

/-- With working PIL, the GIF generator returns its full index. -/
theorem gif_index_of_pilOk (env : GenEnv) (src : String)
    (h : env.pilOk = true) :
    (generate_gif_variations env src).1 = some gif_index_entries := by
  simp only [generate_gif_variations, h]
  rfl

/-- With failing PIL, the GIF generator returns `None`. -/
theorem gif_index_of_noPil (env : GenEnv) (src : String)
    (h : env.pilOk = false) :
    (generate_gif_variations env src).1 = none := by
  simp [generate_gif_variations, h]

/-- With working PIL, the GIF generator writes its fixed file set, whose
names are exactly the paths of its index entries. -/
theorem gif_writes_of_pilOk (env : GenEnv) (src : String)
    (h : env.pilOk = true) :
    ((generate_gif_variations env src).2.map Prod.fst)
      = gif_index_entries.map (fun e => e.path) := by
  simp only [generate_gif_variations, h]
  decide

/-- In an environment where every ImageMagick invocation succeeds and
PIL works, the JPEG generator writes one file per index entry, under
exactly the entry paths. -/
theorem jpeg_writes_all_success (env : GenEnv) (src : String)
    (hAll : ∀ c, env.imOk c = true) (hpil : env.pilOk = true) :
    ((generate_jpeg_variations env src).2.map Prod.fst)
      = jpeg_index_entries.map (fun e => e.path) := by
  simp [generate_jpeg_variations, jpeg_row_effect, jpeg_row_entry,
    jpeg_index_entries, jpeg_critical_entries, jpeg_specs,
    convert_jpeg_colorspace, convert_jpeg_encoding, convert_jpeg_thumbnail,
    convert_jpeg_quality, convert_jpeg_subsampling, convert_jpeg_metadata,
    convert_jpeg_icc, convert_jpeg_orientation, convert_jpeg_dpi,
    convert_jpeg_critical_combinations, imWrite, hAll, hpil,
    PyParam.toStr, PyParam.toNat]

/-- In an environment where every ImageMagick invocation succeeds and
OpenCV works, the PNG generator writes one file per index entry, under
exactly the entry paths. -/
theorem png_writes_all_success (env : GenEnv) (src : String)
    (hAll : ∀ c, env.imOk c = true) (hcv : env.cvOk = true) :
    ((generate_png_variations env src).2.map Prod.fst)
      = png_index_entries.map (fun e => e.path) := by
  simp [generate_png_variations, png_row_effect, png_row_entry,
    png_index_entries, png_critical_entries, png_specs,
    convert_png_colortype, convert_png_interlace, convert_png_depth,
    convert_png_compression, convert_png_alpha, convert_png_filter,
    convert_png_metadata, convert_png_chunks,
    convert_png_critical_combinations, imWrite, hAll, hcv,
    PyParam.toStr, PyParam.toNat]
  decide

/-- A generation environment in which every operation succeeds except
the single ImageMagick command producing `quality_20.jpg` from the
default source layout. -/
def failQuality20Env : GenEnv :=
  ⟨fun cmd => !(cmd == ["convert", "output/test_original.jpg", "-quality",
      "20", "jpeg/quality_20.jpg"]),
   true, true, true, none⟩

/-- The filesystem holding exactly the three source images of the
default layout. -/
def initialSourceFs : List String :=
  ["output/test_original.jpg", "output/test_original.png",
   "output/test_original.gif"]

/-- C1, counterexample to the claim as stated: when the single
ImageMagick call for `quality_20.jpg` fails, the run still returns
success and still writes an index entry for `jpeg/quality_20.jpg`, but
no such file exists on disk — the index does not contain one entry per
successfully generated file, and the entry path does not resolve. -/
theorem c1_counterexample :
    ((generate_variations failQuality20Env initialSourceFs "output"
        "output").success = true)
    ∧ (((generate_variations failQuality20Env initialSourceFs "output"
        "output").index.getD []).countP
        (fun e => e.path == "jpeg/quality_20.jpg") = 1)
    ∧ ((generate_variations failQuality20Env initialSourceFs "output"
        "output").fs.contains "output/jpeg/quality_20.jpg" = false) := by
  refine ⟨by decide, by decide, by decide⟩

/-- C1, amended: a successful run writes `index.json` holding exactly
one entry per ATTEMPTED variation (a failed individual conversion still
gets its entry, with its file missing) plus the 3 original entries: 90
entries with pairwise distinct paths, each with non-empty `format`,
`path`, `jp` and `en` fields; and when every individual conversion
succeeds (all ImageMagick commands and OpenCV) and the source directory
equals the output directory, every entry's path resolves to an existing
file under the output directory. -/
theorem c1_index_amended (env : GenEnv) (fs0 : List String) (d : String)
    (hrun : (generate_variations env fs0 d d).success = true) :
    ((generate_variations env fs0 d d).index = some full_index)
    ∧ full_index.length = 90
    ∧ (full_index.all (fun e => !(e.format == "") && !(e.path == "")
        && !(e.jp == "") && !(e.en == ""))) = true
    ∧ (full_index.map (fun e => e.path)).Nodup
    ∧ ((∀ c, env.imOk c = true) → env.cvOk = true →
        ∀ e ∈ full_index,
          (generate_variations env fs0 d d).fs.contains (d ++ "/" ++ e.path)
            = true) := by
  have hj : (generate_jpeg_variations env (d ++ "/test_original.jpg")).1
      = some jpeg_index_entries := rfl
  have hpn : (generate_png_variations env (d ++ "/test_original.png")).1
      = some png_index_entries := rfl
  have hm : env.mkdirOk = true := by
    by_contra hm'
    have hm2 : env.mkdirOk = false := by
      revert hm'; cases env.mkdirOk <;> simp
    simp [generate_variations, hm2] at hrun
  have h1 : (d ++ "/test_original.jpg") ∈ fs0 := by
    by_contra h'
    simp [generate_variations, hm, h'] at hrun
  have h2 : (d ++ "/test_original.png") ∈ fs0 := by
    by_contra h'
    simp [generate_variations, hm, h1, h'] at hrun
  have h3 : (d ++ "/test_original.gif") ∈ fs0 := by
    by_contra h'
    simp [generate_variations, hm, h1, h2, h'] at hrun
  have hpil : env.pilOk = true := by
    by_contra hp'
    have hp2 : env.pilOk = false := by
      revert hp'; cases env.pilOk <;> simp
    have hgn := gif_index_of_noPil env (d ++ "/test_original.gif") hp2
    simp [generate_variations, hm, h1, h2, h3, hj, hpn, hgn] at hrun
  have hg : (generate_gif_variations env (d ++ "/test_original.gif")).1
      = some gif_index_entries := gif_index_of_pilOk _ _ hpil
  refine ⟨?_, by decide, by decide, by decide, ?_⟩
  · simp [generate_variations, hm, h1, h2, h3, hj, hpn, hg, full_index]
  · intro hAll hcv e he
    have hA : List.map (fun w => d ++ "/" ++ w.1)
        (generate_jpeg_variations env (d ++ "/test_original.jpg")).2
        = (jpeg_index_entries.map (fun e => e.path)).map
          (fun p => d ++ "/" ++ p) := by
      rw [← jpeg_writes_all_success env (d ++ "/test_original.jpg") hAll
        hpil, List.map_map]
      rfl
    have hB : List.map (fun w => d ++ "/" ++ w.1)
        (generate_png_variations env (d ++ "/test_original.png")).2
        = (png_index_entries.map (fun e => e.path)).map
          (fun p => d ++ "/" ++ p) := by
      rw [← png_writes_all_success env (d ++ "/test_original.png") hAll
        hcv, List.map_map]
      rfl
    have hC : List.map (fun w => d ++ "/" ++ w.1)
        (generate_gif_variations env (d ++ "/test_original.gif")).2
        = (gif_index_entries.map (fun e => e.path)).map
          (fun p => d ++ "/" ++ p) := by
      rw [← gif_writes_of_pilOk env (d ++ "/test_original.gif") hpil,
        List.map_map]
      rfl
    have hfs : (generate_variations env fs0 d d).fs
        = fs0 ++ (List.map (fun w => d ++ "/" ++ w.1)
            (generate_jpeg_variations env (d ++ "/test_original.jpg")).2
          ++ (List.map (fun w => d ++ "/" ++ w.1)
            (generate_png_variations env (d ++ "/test_original.png")).2
          ++ (List.map (fun w => d ++ "/" ++ w.1)
            (generate_gif_variations env (d ++ "/test_original.gif")).2
          ++ [d ++ "/index.json"]))) := by
      simp [generate_variations, hm, h1, h2, h3, hj, hpn, hg]
    rw [hfs, hA, hB, hC]
    apply contains_of_mem
    rw [full_index] at he
    rcases List.mem_append.mp he with he3 | hegif
    · rcases List.mem_append.mp he3 with he2 | hepng
      · rcases List.mem_append.mp he2 with heor | hejpeg
        · apply List.mem_append_left
          fin_cases heor
          · rw [show (d ++ "/" ++ "test_original.jpg")
              = d ++ "/test_original.jpg" by rw [String.append_assoc]; rfl]
            exact h1
          · rw [show (d ++ "/" ++ "test_original.png")
              = d ++ "/test_original.png" by rw [String.append_assoc]; rfl]
            exact h2
          · rw [show (d ++ "/" ++ "test_original.gif")
              = d ++ "/test_original.gif" by rw [String.append_assoc]; rfl]
            exact h3
        · exact List.mem_append_right _ (List.mem_append_left _
            (List.mem_map_of_mem _
              (List.mem_map_of_mem (fun e => e.path) hejpeg)))
      · exact List.mem_append_right _ (List.mem_append_right _
          (List.mem_append_left _ (List.mem_map_of_mem _
            (List.mem_map_of_mem (fun e => e.path) hepng))))
    · exact List.mem_append_right _ (List.mem_append_right _
        (List.mem_append_right _ (List.mem_append_left _
          (List.mem_map_of_mem _
            (List.mem_map_of_mem (fun e => e.path) hegif)))))

/-- C1, witness: the amended theorem evaluated in the all-successful
environment on the default directory layout, resolving one entry. -/
theorem c1_index_amended_witness :
    ((generate_variations allOkGenEnv initialSourceFs "output"
      "output").index = some full_index)
    ∧ ((generate_variations allOkGenEnv initialSourceFs "output"
      "output").fs.contains ("output" ++ "/" ++ "jpeg/quality_20.jpg")
      = true) :=
  ⟨(c1_index_amended allOkGenEnv initialSourceFs "output" (by decide)).1,
   (c1_index_amended allOkGenEnv initialSourceFs "output" (by decide)).2.2.2.2
     (fun c => rfl) rfl ⟨"jpeg", "jpeg/quality_20.jpg",
       "低品質（高圧縮、ファイルサイズ小）",
       "Low quality (high compression, small file size)"⟩ (by decide)⟩

end ImgVarToolkit
